import Mathlib

/-!
Verification of the BizBuz card service (src/server.js) against its
natural-language specification.  The JavaScript source is shallowly
embedded: profiles are records of optional strings (a missing field or the
empty string are JavaScript-falsy, captured by `truthyS`), the upstream
profile fetch is modelled by an explicit outcome value, and every string
transformation is translated to Lean `String`/`List Char` operations.
-/

/-- JavaScript truthiness of a possibly-absent string field:
`undefined` and the empty string are falsy, every other string truthy. -/
def truthyS : Option String → Bool
  | none => false
  | some s => !(s == "")

/-- The string value of a field, with `undefined` read as `""`
(used only where the source already checked truthiness). -/
def jsStr (o : Option String) : String := o.getD ""

/-- JavaScript `o || d` for a string field: the field's value when truthy,
otherwise the default `d`. -/
def jsOr (o : Option String) (d : String) : String :=
  if truthyS o then jsStr o else d

/-- The nested `social` record of a Prof profile (src/server.js, data model). -/
structure Social where
  github : Option String := none
  twitter : Option String := none
  linkedin : Option String := none

/-- A Prof profile as consumed by src/server.js: an opaque bag of optional
free-form strings plus an optional `social` record. -/
structure Profile where
  name : Option String := none
  title : Option String := none
  company : Option String := none
  email : Option String := none
  phone : Option String := none
  website : Option String := none
  location : Option String := none
  bio : Option String := none
  social : Option Social := none

/-! ## vCard renderer (src/server.js `generateVCard`, lines 222-283) -/

/-- The `N:` line of the vCard, from src/server.js lines 230-236:
split the name on single spaces; with at least two tokens emit
`N:<rest joined by spaces>;<first token>;;;`, otherwise `N:;<name>;;;`. -/
def nLine (nm : String) : String :=
  let parts := nm.data.splitOn ' '
  if parts.length ≥ 2 then
    "N:" ++ String.mk (List.intercalate [' '] (parts.drop 1)) ++ ";"
      ++ String.mk (parts.headD []) ++ ";;;"
  else
    "N:;" ++ nm ++ ";;;"

/-- The vCard lines pushed after the name block by `generateVCard`
(src/server.js lines 239-280), one `if` per optional field, ending with
`END:VCARD`. -/
def vcardTailLines (p : Profile) : List String :=
  (if truthyS p.title then ["TITLE:" ++ jsStr p.title] else [])
  ++ (if truthyS p.company then ["ORG:" ++ jsStr p.company] else [])
  ++ (if truthyS p.email then ["EMAIL;TYPE=INTERNET:" ++ jsStr p.email] else [])
  ++ (if truthyS p.phone then ["TEL;TYPE=CELL:" ++ jsStr p.phone] else [])
  ++ (if truthyS p.website then ["URL:" ++ jsStr p.website] else [])
  ++ (if truthyS p.location then ["ADR;TYPE=WORK:;;" ++ jsStr p.location ++ ";;;;"] else [])
  ++ (if truthyS p.bio then ["NOTE:" ++ jsStr p.bio] else [])
  ++ (match p.social with
      | none => []
      | some soc =>
        (if truthyS soc.github then
          ["URL;TYPE=GitHub:https://github.com/" ++ jsStr soc.github] else [])
        ++ (if truthyS soc.twitter then
          ["URL;TYPE=Twitter:https://twitter.com/" ++ jsStr soc.twitter] else [])
        ++ (if truthyS soc.linkedin then
          ["URL;TYPE=LinkedIn:https://linkedin.com/in/" ++ jsStr soc.linkedin] else []))
  ++ ["END:VCARD"]

/-- The list of vCard lines pushed by `generateVCard`
(src/server.js lines 223-280): the two fixed header lines, the name
block (lines 228-237), then `vcardTailLines`. -/
def vcardLines (p : Profile) : List String :=
  ["BEGIN:VCARD", "VERSION:3.0"]
  ++ (if truthyS p.name then ["FN:" ++ jsStr p.name, nLine (jsStr p.name)] else [])
  ++ vcardTailLines p

/-- `generateVCard` (src/server.js line 282): `lines.join('\r\n')`. -/
def generateVCard (p : Profile) : String :=
  String.intercalate "\r\n" (vcardLines p)

/-- vCard download filename (src/server.js line 108):
``` `${profile.name || 'contact'}.vcf`.replace(/[^a-zA-Z0-9.-]/g, '_') ```.
The regex replaces characters one at a time, i.e. maps over characters. -/
def sanitizeChar (c : Char) : Char :=
  if c.isAlpha || c.isDigit || c = '.' || c = '-' then c else '_'

/-- The sanitized `Content-Disposition` filename of the `/vcard/:identifier`
endpoint (src/server.js line 108). -/
def vcardFilename (p : Profile) : String :=
  String.mk ((jsOr p.name "contact" ++ ".vcf").data.map sanitizeChar)

/-! ## Profile resolver (src/server.js `fetchProfile`, lines 170-197) -/

/-- A JSON value, as produced by `response.json()`. -/
inductive JVal where
  | null : JVal
  | bool : Bool → JVal
  | num : Int → JVal
  | str : String → JVal
  | obj : List (String × JVal) → JVal

/-- JavaScript truthiness of a JSON value: `null`, `false`, `0` and `""`
are falsy; every object (even `{}`) is truthy. -/
def jsTruthy : JVal → Bool
  | .null => false
  | .bool b => b
  | .num n => !(n == 0)
  | .str s => !(s == "")
  | .obj _ => true

/-- JavaScript property access `v.profile`: a present object field, or
`undefined` (`none`) for absent fields and non-object non-null values.
(Access on `null` throws and is handled separately in `fetchProfile`.) -/
def jsGet (v : JVal) (key : String) : Option JVal :=
  match v with
  | .obj fs => fs.lookup key
  | _ => none

/-- The fixed built-in demo profile returned by `getDemoProfile`
(src/server.js lines 202-217), as the JSON value the resolver hands back. -/
def getDemoProfile : JVal :=
  .obj [("name", .str "Ada Lovelace"),
        ("title", .str "Software Enchantress"),
        ("company", .str "Planet Nine"),
        ("email", .str "ada@planetnine.app"),
        ("phone", .str "+1 (555) 123-4567"),
        ("website", .str "https://planetnine.app"),
        ("location", .str "The Cosmos"),
        ("bio", .str "Building the future of privacy-first technology."),
        ("social", .obj [("github", .str "planet-nine-app"),
                         ("twitter", .str "planetnine")])]

/-- Outcome of the upstream `fetch` in `fetchProfile`: a network error
(the `fetch`/`json` call throws), a non-2xx response (`response.ok` false),
or a 2xx response with a parsed JSON body. -/
inductive FetchOutcome where
  | netError : FetchOutcome
  | httpError : FetchOutcome
  | ok : JVal → FetchOutcome

/-- `fetchProfile` (src/server.js lines 170-197).  On a 2xx response it
returns `data.profile || data` (property access on a `null` body throws a
`TypeError`, which lands in the same `catch` as a network error).  On any
failure it returns the demo profile when the identifier is the literal
`"demo"`, and `null` (`none`) otherwise. -/
def fetchProfile (outcome : FetchOutcome) (identifier : String) : Option JVal :=
  match outcome with
  | .ok .null => if identifier = "demo" then some getDemoProfile else none
  | .ok body =>
      match jsGet body "profile" with
      | some v => if jsTruthy v then some v else some body
      | none => some body
  | .httpError => if identifier = "demo" then some getDemoProfile else none
  | .netError => if identifier = "demo" then some getDemoProfile else none

/-! ## HTML escaping (src/server.js `escapeHtml`, lines 692-700) -/

/-- `str.replace(/c/g, rep)` for a single-character pattern: every
occurrence of the character `c` is replaced by `rep`. -/
def replaceChar (c : Char) (rep : List Char) (l : List Char) : List Char :=
  l.flatMap (fun ch => if ch = c then rep else [ch])

/-- `escapeHtml` (src/server.js lines 692-700): `''` for a falsy argument,
otherwise the five global replaces `&`→`&amp;`, `<`→`&lt;`, `>`→`&gt;`,
`"`→`&quot;`, `'`→`&#039;`, applied in that order. -/
def escapeHtml (str : Option String) : String :=
  if truthyS str = false then ""
  else
    String.mk
      (replaceChar (Char.ofNat 39) "&#039;".data
        (replaceChar (Char.ofNat 34) "&quot;".data
          (replaceChar '>' "&gt;".data
            (replaceChar '<' "&lt;".data
              (replaceChar '&' "&amp;".data (jsStr str).data)))))

/-- One-pass character-wise HTML escaping — the specification's notion of
escaping the five special characters.  `escapeHtml` is proved equal to
mapping this over the input. -/
def escChar (c : Char) : List Char :=
  if c = '&' then "&amp;".data
  else if c = '<' then "&lt;".data
  else if c = '>' then "&gt;".data
  else if c = Char.ofNat 34 then "&quot;".data
  else if c = Char.ofNat 39 then "&#039;".data
  else [c]

/-! ## Initials (src/server.js `getInitials`, lines 679-687) -/

set_option maxHeartbeats 4000000 in
/-- The Unicode Default Case Conversion full uppercase mapping for
non-ASCII code points (Unicode 14.0.0): every code point at or above 128
whose full uppercase differs from itself, paired with the code points of
its uppercase expansion.  This is the mapping JavaScript
`String.prototype.toUpperCase()` applies; a mapping may expand one
character to up to three (for example 223, the letter sharp s, maps to
`SS`, and 64259 to `FFI`). -/
def ucTable : List (Nat × List Nat) :=
  [(181, [924]), (223, [83, 83]), (224, [192]), (225, [193]), (226, [194]), (227, [195]),
   (228, [196]), (229, [197]), (230, [198]), (231, [199]), (232, [200]), (233, [201]),
   (234, [202]), (235, [203]), (236, [204]), (237, [205]), (238, [206]), (239, [207]),
   (240, [208]), (241, [209]), (242, [210]), (243, [211]), (244, [212]), (245, [213]),
   (246, [214]), (248, [216]), (249, [217]), (250, [218]), (251, [219]), (252, [220]),
   (253, [221]), (254, [222]), (255, [376]), (257, [256]), (259, [258]), (261, [260]),
   (263, [262]), (265, [264]), (267, [266]), (269, [268]), (271, [270]), (273, [272]),
   (275, [274]), (277, [276]), (279, [278]), (281, [280]), (283, [282]), (285, [284]),
   (287, [286]), (289, [288]), (291, [290]), (293, [292]), (295, [294]), (297, [296]),
   (299, [298]), (301, [300]), (303, [302]), (305, [73]), (307, [306]), (309, [308]),
   (311, [310]), (314, [313]), (316, [315]), (318, [317]), (320, [319]), (322, [321]),
   (324, [323]), (326, [325]), (328, [327]), (329, [700, 78]), (331, [330]), (333, [332]),
   (335, [334]), (337, [336]), (339, [338]), (341, [340]), (343, [342]), (345, [344]),
   (347, [346]), (349, [348]), (351, [350]), (353, [352]), (355, [354]), (357, [356]),
   (359, [358]), (361, [360]), (363, [362]), (365, [364]), (367, [366]), (369, [368]),
   (371, [370]), (373, [372]), (375, [374]), (378, [377]), (380, [379]), (382, [381]),
   (383, [83]), (384, [579]), (387, [386]), (389, [388]), (392, [391]), (396, [395]),
   (402, [401]), (405, [502]), (409, [408]), (410, [573]), (414, [544]), (417, [416]),
   (419, [418]), (421, [420]), (424, [423]), (429, [428]), (432, [431]), (436, [435]),
   (438, [437]), (441, [440]), (445, [444]), (447, [503]), (453, [452]), (454, [452]),
   (456, [455]), (457, [455]), (459, [458]), (460, [458]), (462, [461]), (464, [463]),
   (466, [465]), (468, [467]), (470, [469]), (472, [471]), (474, [473]), (476, [475]),
   (477, [398]), (479, [478]), (481, [480]), (483, [482]), (485, [484]), (487, [486]),
   (489, [488]), (491, [490]), (493, [492]), (495, [494]), (496, [74, 780]), (498, [497]),
   (499, [497]), (501, [500]), (505, [504]), (507, [506]), (509, [508]), (511, [510]),
   (513, [512]), (515, [514]), (517, [516]), (519, [518]), (521, [520]), (523, [522]),
   (525, [524]), (527, [526]), (529, [528]), (531, [530]), (533, [532]), (535, [534]),
   (537, [536]), (539, [538]), (541, [540]), (543, [542]), (547, [546]), (549, [548]),
   (551, [550]), (553, [552]), (555, [554]), (557, [556]), (559, [558]), (561, [560]),
   (563, [562]), (572, [571]), (575, [11390]), (576, [11391]), (578, [577]), (583, [582]),
   (585, [584]), (587, [586]), (589, [588]), (591, [590]), (592, [11375]), (593, [11373]),
   (594, [11376]), (595, [385]), (596, [390]), (598, [393]), (599, [394]), (601, [399]),
   (603, [400]), (604, [42923]), (608, [403]), (609, [42924]), (611, [404]), (613, [42893]),
   (614, [42922]), (616, [407]), (617, [406]), (618, [42926]), (619, [11362]), (620, [42925]),
   (623, [412]), (625, [11374]), (626, [413]), (629, [415]), (637, [11364]), (640, [422]),
   (642, [42949]), (643, [425]), (647, [42929]), (648, [430]), (649, [580]), (650, [433]),
   (651, [434]), (652, [581]), (658, [439]), (669, [42930]), (670, [42928]), (837, [921]),
   (881, [880]), (883, [882]), (887, [886]), (891, [1021]), (892, [1022]), (893, [1023]),
   (912, [921, 776, 769]), (940, [902]), (941, [904]), (942, [905]), (943, [906]), (944, [933, 776, 769]),
   (945, [913]), (946, [914]), (947, [915]), (948, [916]), (949, [917]), (950, [918]),
   (951, [919]), (952, [920]), (953, [921]), (954, [922]), (955, [923]), (956, [924]),
   (957, [925]), (958, [926]), (959, [927]), (960, [928]), (961, [929]), (962, [931]),
   (963, [931]), (964, [932]), (965, [933]), (966, [934]), (967, [935]), (968, [936]),
   (969, [937]), (970, [938]), (971, [939]), (972, [908]), (973, [910]), (974, [911]),
   (976, [914]), (977, [920]), (981, [934]), (982, [928]), (983, [975]), (985, [984]),
   (987, [986]), (989, [988]), (991, [990]), (993, [992]), (995, [994]), (997, [996]),
   (999, [998]), (1001, [1000]), (1003, [1002]), (1005, [1004]), (1007, [1006]), (1008, [922]),
   (1009, [929]), (1010, [1017]), (1011, [895]), (1013, [917]), (1016, [1015]), (1019, [1018]),
   (1072, [1040]), (1073, [1041]), (1074, [1042]), (1075, [1043]), (1076, [1044]), (1077, [1045]),
   (1078, [1046]), (1079, [1047]), (1080, [1048]), (1081, [1049]), (1082, [1050]), (1083, [1051]),
   (1084, [1052]), (1085, [1053]), (1086, [1054]), (1087, [1055]), (1088, [1056]), (1089, [1057]),
   (1090, [1058]), (1091, [1059]), (1092, [1060]), (1093, [1061]), (1094, [1062]), (1095, [1063]),
   (1096, [1064]), (1097, [1065]), (1098, [1066]), (1099, [1067]), (1100, [1068]), (1101, [1069]),
   (1102, [1070]), (1103, [1071]), (1104, [1024]), (1105, [1025]), (1106, [1026]), (1107, [1027]),
   (1108, [1028]), (1109, [1029]), (1110, [1030]), (1111, [1031]), (1112, [1032]), (1113, [1033]),
   (1114, [1034]), (1115, [1035]), (1116, [1036]), (1117, [1037]), (1118, [1038]), (1119, [1039]),
   (1121, [1120]), (1123, [1122]), (1125, [1124]), (1127, [1126]), (1129, [1128]), (1131, [1130]),
   (1133, [1132]), (1135, [1134]), (1137, [1136]), (1139, [1138]), (1141, [1140]), (1143, [1142]),
   (1145, [1144]), (1147, [1146]), (1149, [1148]), (1151, [1150]), (1153, [1152]), (1163, [1162]),
   (1165, [1164]), (1167, [1166]), (1169, [1168]), (1171, [1170]), (1173, [1172]), (1175, [1174]),
   (1177, [1176]), (1179, [1178]), (1181, [1180]), (1183, [1182]), (1185, [1184]), (1187, [1186]),
   (1189, [1188]), (1191, [1190]), (1193, [1192]), (1195, [1194]), (1197, [1196]), (1199, [1198]),
   (1201, [1200]), (1203, [1202]), (1205, [1204]), (1207, [1206]), (1209, [1208]), (1211, [1210]),
   (1213, [1212]), (1215, [1214]), (1218, [1217]), (1220, [1219]), (1222, [1221]), (1224, [1223]),
   (1226, [1225]), (1228, [1227]), (1230, [1229]), (1231, [1216]), (1233, [1232]), (1235, [1234]),
   (1237, [1236]), (1239, [1238]), (1241, [1240]), (1243, [1242]), (1245, [1244]), (1247, [1246]),
   (1249, [1248]), (1251, [1250]), (1253, [1252]), (1255, [1254]), (1257, [1256]), (1259, [1258]),
   (1261, [1260]), (1263, [1262]), (1265, [1264]), (1267, [1266]), (1269, [1268]), (1271, [1270]),
   (1273, [1272]), (1275, [1274]), (1277, [1276]), (1279, [1278]), (1281, [1280]), (1283, [1282]),
   (1285, [1284]), (1287, [1286]), (1289, [1288]), (1291, [1290]), (1293, [1292]), (1295, [1294]),
   (1297, [1296]), (1299, [1298]), (1301, [1300]), (1303, [1302]), (1305, [1304]), (1307, [1306]),
   (1309, [1308]), (1311, [1310]), (1313, [1312]), (1315, [1314]), (1317, [1316]), (1319, [1318]),
   (1321, [1320]), (1323, [1322]), (1325, [1324]), (1327, [1326]), (1377, [1329]), (1378, [1330]),
   (1379, [1331]), (1380, [1332]), (1381, [1333]), (1382, [1334]), (1383, [1335]), (1384, [1336]),
   (1385, [1337]), (1386, [1338]), (1387, [1339]), (1388, [1340]), (1389, [1341]), (1390, [1342]),
   (1391, [1343]), (1392, [1344]), (1393, [1345]), (1394, [1346]), (1395, [1347]), (1396, [1348]),
   (1397, [1349]), (1398, [1350]), (1399, [1351]), (1400, [1352]), (1401, [1353]), (1402, [1354]),
   (1403, [1355]), (1404, [1356]), (1405, [1357]), (1406, [1358]), (1407, [1359]), (1408, [1360]),
   (1409, [1361]), (1410, [1362]), (1411, [1363]), (1412, [1364]), (1413, [1365]), (1414, [1366]),
   (1415, [1333, 1362]), (4304, [7312]), (4305, [7313]), (4306, [7314]), (4307, [7315]), (4308, [7316]),
   (4309, [7317]), (4310, [7318]), (4311, [7319]), (4312, [7320]), (4313, [7321]), (4314, [7322]),
   (4315, [7323]), (4316, [7324]), (4317, [7325]), (4318, [7326]), (4319, [7327]), (4320, [7328]),
   (4321, [7329]), (4322, [7330]), (4323, [7331]), (4324, [7332]), (4325, [7333]), (4326, [7334]),
   (4327, [7335]), (4328, [7336]), (4329, [7337]), (4330, [7338]), (4331, [7339]), (4332, [7340]),
   (4333, [7341]), (4334, [7342]), (4335, [7343]), (4336, [7344]), (4337, [7345]), (4338, [7346]),
   (4339, [7347]), (4340, [7348]), (4341, [7349]), (4342, [7350]), (4343, [7351]), (4344, [7352]),
   (4345, [7353]), (4346, [7354]), (4349, [7357]), (4350, [7358]), (4351, [7359]), (5112, [5104]),
   (5113, [5105]), (5114, [5106]), (5115, [5107]), (5116, [5108]), (5117, [5109]), (7296, [1042]),
   (7297, [1044]), (7298, [1054]), (7299, [1057]), (7300, [1058]), (7301, [1058]), (7302, [1066]),
   (7303, [1122]), (7304, [42570]), (7545, [42877]), (7549, [11363]), (7566, [42950]), (7681, [7680]),
   (7683, [7682]), (7685, [7684]), (7687, [7686]), (7689, [7688]), (7691, [7690]), (7693, [7692]),
   (7695, [7694]), (7697, [7696]), (7699, [7698]), (7701, [7700]), (7703, [7702]), (7705, [7704]),
   (7707, [7706]), (7709, [7708]), (7711, [7710]), (7713, [7712]), (7715, [7714]), (7717, [7716]),
   (7719, [7718]), (7721, [7720]), (7723, [7722]), (7725, [7724]), (7727, [7726]), (7729, [7728]),
   (7731, [7730]), (7733, [7732]), (7735, [7734]), (7737, [7736]), (7739, [7738]), (7741, [7740]),
   (7743, [7742]), (7745, [7744]), (7747, [7746]), (7749, [7748]), (7751, [7750]), (7753, [7752]),
   (7755, [7754]), (7757, [7756]), (7759, [7758]), (7761, [7760]), (7763, [7762]), (7765, [7764]),
   (7767, [7766]), (7769, [7768]), (7771, [7770]), (7773, [7772]), (7775, [7774]), (7777, [7776]),
   (7779, [7778]), (7781, [7780]), (7783, [7782]), (7785, [7784]), (7787, [7786]), (7789, [7788]),
   (7791, [7790]), (7793, [7792]), (7795, [7794]), (7797, [7796]), (7799, [7798]), (7801, [7800]),
   (7803, [7802]), (7805, [7804]), (7807, [7806]), (7809, [7808]), (7811, [7810]), (7813, [7812]),
   (7815, [7814]), (7817, [7816]), (7819, [7818]), (7821, [7820]), (7823, [7822]), (7825, [7824]),
   (7827, [7826]), (7829, [7828]), (7830, [72, 817]), (7831, [84, 776]), (7832, [87, 778]), (7833, [89, 778]),
   (7834, [65, 702]), (7835, [7776]), (7841, [7840]), (7843, [7842]), (7845, [7844]), (7847, [7846]),
   (7849, [7848]), (7851, [7850]), (7853, [7852]), (7855, [7854]), (7857, [7856]), (7859, [7858]),
   (7861, [7860]), (7863, [7862]), (7865, [7864]), (7867, [7866]), (7869, [7868]), (7871, [7870]),
   (7873, [7872]), (7875, [7874]), (7877, [7876]), (7879, [7878]), (7881, [7880]), (7883, [7882]),
   (7885, [7884]), (7887, [7886]), (7889, [7888]), (7891, [7890]), (7893, [7892]), (7895, [7894]),
   (7897, [7896]), (7899, [7898]), (7901, [7900]), (7903, [7902]), (7905, [7904]), (7907, [7906]),
   (7909, [7908]), (7911, [7910]), (7913, [7912]), (7915, [7914]), (7917, [7916]), (7919, [7918]),
   (7921, [7920]), (7923, [7922]), (7925, [7924]), (7927, [7926]), (7929, [7928]), (7931, [7930]),
   (7933, [7932]), (7935, [7934]), (7936, [7944]), (7937, [7945]), (7938, [7946]), (7939, [7947]),
   (7940, [7948]), (7941, [7949]), (7942, [7950]), (7943, [7951]), (7952, [7960]), (7953, [7961]),
   (7954, [7962]), (7955, [7963]), (7956, [7964]), (7957, [7965]), (7968, [7976]), (7969, [7977]),
   (7970, [7978]), (7971, [7979]), (7972, [7980]), (7973, [7981]), (7974, [7982]), (7975, [7983]),
   (7984, [7992]), (7985, [7993]), (7986, [7994]), (7987, [7995]), (7988, [7996]), (7989, [7997]),
   (7990, [7998]), (7991, [7999]), (8000, [8008]), (8001, [8009]), (8002, [8010]), (8003, [8011]),
   (8004, [8012]), (8005, [8013]), (8016, [933, 787]), (8017, [8025]), (8018, [933, 787, 768]), (8019, [8027]),
   (8020, [933, 787, 769]), (8021, [8029]), (8022, [933, 787, 834]), (8023, [8031]), (8032, [8040]), (8033, [8041]),
   (8034, [8042]), (8035, [8043]), (8036, [8044]), (8037, [8045]), (8038, [8046]), (8039, [8047]),
   (8048, [8122]), (8049, [8123]), (8050, [8136]), (8051, [8137]), (8052, [8138]), (8053, [8139]),
   (8054, [8154]), (8055, [8155]), (8056, [8184]), (8057, [8185]), (8058, [8170]), (8059, [8171]),
   (8060, [8186]), (8061, [8187]), (8064, [7944, 921]), (8065, [7945, 921]), (8066, [7946, 921]), (8067, [7947, 921]),
   (8068, [7948, 921]), (8069, [7949, 921]), (8070, [7950, 921]), (8071, [7951, 921]), (8072, [7944, 921]), (8073, [7945, 921]),
   (8074, [7946, 921]), (8075, [7947, 921]), (8076, [7948, 921]), (8077, [7949, 921]), (8078, [7950, 921]), (8079, [7951, 921]),
   (8080, [7976, 921]), (8081, [7977, 921]), (8082, [7978, 921]), (8083, [7979, 921]), (8084, [7980, 921]), (8085, [7981, 921]),
   (8086, [7982, 921]), (8087, [7983, 921]), (8088, [7976, 921]), (8089, [7977, 921]), (8090, [7978, 921]), (8091, [7979, 921]),
   (8092, [7980, 921]), (8093, [7981, 921]), (8094, [7982, 921]), (8095, [7983, 921]), (8096, [8040, 921]), (8097, [8041, 921]),
   (8098, [8042, 921]), (8099, [8043, 921]), (8100, [8044, 921]), (8101, [8045, 921]), (8102, [8046, 921]), (8103, [8047, 921]),
   (8104, [8040, 921]), (8105, [8041, 921]), (8106, [8042, 921]), (8107, [8043, 921]), (8108, [8044, 921]), (8109, [8045, 921]),
   (8110, [8046, 921]), (8111, [8047, 921]), (8112, [8120]), (8113, [8121]), (8114, [8122, 921]), (8115, [913, 921]),
   (8116, [902, 921]), (8118, [913, 834]), (8119, [913, 834, 921]), (8124, [913, 921]), (8126, [921]), (8130, [8138, 921]),
   (8131, [919, 921]), (8132, [905, 921]), (8134, [919, 834]), (8135, [919, 834, 921]), (8140, [919, 921]), (8144, [8152]),
   (8145, [8153]), (8146, [921, 776, 768]), (8147, [921, 776, 769]), (8150, [921, 834]), (8151, [921, 776, 834]), (8160, [8168]),
   (8161, [8169]), (8162, [933, 776, 768]), (8163, [933, 776, 769]), (8164, [929, 787]), (8165, [8172]), (8166, [933, 834]),
   (8167, [933, 776, 834]), (8178, [8186, 921]), (8179, [937, 921]), (8180, [911, 921]), (8182, [937, 834]), (8183, [937, 834, 921]),
   (8188, [937, 921]), (8526, [8498]), (8560, [8544]), (8561, [8545]), (8562, [8546]), (8563, [8547]),
   (8564, [8548]), (8565, [8549]), (8566, [8550]), (8567, [8551]), (8568, [8552]), (8569, [8553]),
   (8570, [8554]), (8571, [8555]), (8572, [8556]), (8573, [8557]), (8574, [8558]), (8575, [8559]),
   (8580, [8579]), (9424, [9398]), (9425, [9399]), (9426, [9400]), (9427, [9401]), (9428, [9402]),
   (9429, [9403]), (9430, [9404]), (9431, [9405]), (9432, [9406]), (9433, [9407]), (9434, [9408]),
   (9435, [9409]), (9436, [9410]), (9437, [9411]), (9438, [9412]), (9439, [9413]), (9440, [9414]),
   (9441, [9415]), (9442, [9416]), (9443, [9417]), (9444, [9418]), (9445, [9419]), (9446, [9420]),
   (9447, [9421]), (9448, [9422]), (9449, [9423]), (11312, [11264]), (11313, [11265]), (11314, [11266]),
   (11315, [11267]), (11316, [11268]), (11317, [11269]), (11318, [11270]), (11319, [11271]), (11320, [11272]),
   (11321, [11273]), (11322, [11274]), (11323, [11275]), (11324, [11276]), (11325, [11277]), (11326, [11278]),
   (11327, [11279]), (11328, [11280]), (11329, [11281]), (11330, [11282]), (11331, [11283]), (11332, [11284]),
   (11333, [11285]), (11334, [11286]), (11335, [11287]), (11336, [11288]), (11337, [11289]), (11338, [11290]),
   (11339, [11291]), (11340, [11292]), (11341, [11293]), (11342, [11294]), (11343, [11295]), (11344, [11296]),
   (11345, [11297]), (11346, [11298]), (11347, [11299]), (11348, [11300]), (11349, [11301]), (11350, [11302]),
   (11351, [11303]), (11352, [11304]), (11353, [11305]), (11354, [11306]), (11355, [11307]), (11356, [11308]),
   (11357, [11309]), (11358, [11310]), (11359, [11311]), (11361, [11360]), (11365, [570]), (11366, [574]),
   (11368, [11367]), (11370, [11369]), (11372, [11371]), (11379, [11378]), (11382, [11381]), (11393, [11392]),
   (11395, [11394]), (11397, [11396]), (11399, [11398]), (11401, [11400]), (11403, [11402]), (11405, [11404]),
   (11407, [11406]), (11409, [11408]), (11411, [11410]), (11413, [11412]), (11415, [11414]), (11417, [11416]),
   (11419, [11418]), (11421, [11420]), (11423, [11422]), (11425, [11424]), (11427, [11426]), (11429, [11428]),
   (11431, [11430]), (11433, [11432]), (11435, [11434]), (11437, [11436]), (11439, [11438]), (11441, [11440]),
   (11443, [11442]), (11445, [11444]), (11447, [11446]), (11449, [11448]), (11451, [11450]), (11453, [11452]),
   (11455, [11454]), (11457, [11456]), (11459, [11458]), (11461, [11460]), (11463, [11462]), (11465, [11464]),
   (11467, [11466]), (11469, [11468]), (11471, [11470]), (11473, [11472]), (11475, [11474]), (11477, [11476]),
   (11479, [11478]), (11481, [11480]), (11483, [11482]), (11485, [11484]), (11487, [11486]), (11489, [11488]),
   (11491, [11490]), (11500, [11499]), (11502, [11501]), (11507, [11506]), (11520, [4256]), (11521, [4257]),
   (11522, [4258]), (11523, [4259]), (11524, [4260]), (11525, [4261]), (11526, [4262]), (11527, [4263]),
   (11528, [4264]), (11529, [4265]), (11530, [4266]), (11531, [4267]), (11532, [4268]), (11533, [4269]),
   (11534, [4270]), (11535, [4271]), (11536, [4272]), (11537, [4273]), (11538, [4274]), (11539, [4275]),
   (11540, [4276]), (11541, [4277]), (11542, [4278]), (11543, [4279]), (11544, [4280]), (11545, [4281]),
   (11546, [4282]), (11547, [4283]), (11548, [4284]), (11549, [4285]), (11550, [4286]), (11551, [4287]),
   (11552, [4288]), (11553, [4289]), (11554, [4290]), (11555, [4291]), (11556, [4292]), (11557, [4293]),
   (11559, [4295]), (11565, [4301]), (42561, [42560]), (42563, [42562]), (42565, [42564]), (42567, [42566]),
   (42569, [42568]), (42571, [42570]), (42573, [42572]), (42575, [42574]), (42577, [42576]), (42579, [42578]),
   (42581, [42580]), (42583, [42582]), (42585, [42584]), (42587, [42586]), (42589, [42588]), (42591, [42590]),
   (42593, [42592]), (42595, [42594]), (42597, [42596]), (42599, [42598]), (42601, [42600]), (42603, [42602]),
   (42605, [42604]), (42625, [42624]), (42627, [42626]), (42629, [42628]), (42631, [42630]), (42633, [42632]),
   (42635, [42634]), (42637, [42636]), (42639, [42638]), (42641, [42640]), (42643, [42642]), (42645, [42644]),
   (42647, [42646]), (42649, [42648]), (42651, [42650]), (42787, [42786]), (42789, [42788]), (42791, [42790]),
   (42793, [42792]), (42795, [42794]), (42797, [42796]), (42799, [42798]), (42803, [42802]), (42805, [42804]),
   (42807, [42806]), (42809, [42808]), (42811, [42810]), (42813, [42812]), (42815, [42814]), (42817, [42816]),
   (42819, [42818]), (42821, [42820]), (42823, [42822]), (42825, [42824]), (42827, [42826]), (42829, [42828]),
   (42831, [42830]), (42833, [42832]), (42835, [42834]), (42837, [42836]), (42839, [42838]), (42841, [42840]),
   (42843, [42842]), (42845, [42844]), (42847, [42846]), (42849, [42848]), (42851, [42850]), (42853, [42852]),
   (42855, [42854]), (42857, [42856]), (42859, [42858]), (42861, [42860]), (42863, [42862]), (42874, [42873]),
   (42876, [42875]), (42879, [42878]), (42881, [42880]), (42883, [42882]), (42885, [42884]), (42887, [42886]),
   (42892, [42891]), (42897, [42896]), (42899, [42898]), (42900, [42948]), (42903, [42902]), (42905, [42904]),
   (42907, [42906]), (42909, [42908]), (42911, [42910]), (42913, [42912]), (42915, [42914]), (42917, [42916]),
   (42919, [42918]), (42921, [42920]), (42933, [42932]), (42935, [42934]), (42937, [42936]), (42939, [42938]),
   (42941, [42940]), (42943, [42942]), (42945, [42944]), (42947, [42946]), (42952, [42951]), (42954, [42953]),
   (42961, [42960]), (42967, [42966]), (42969, [42968]), (42998, [42997]), (43859, [42931]), (43888, [5024]),
   (43889, [5025]), (43890, [5026]), (43891, [5027]), (43892, [5028]), (43893, [5029]), (43894, [5030]),
   (43895, [5031]), (43896, [5032]), (43897, [5033]), (43898, [5034]), (43899, [5035]), (43900, [5036]),
   (43901, [5037]), (43902, [5038]), (43903, [5039]), (43904, [5040]), (43905, [5041]), (43906, [5042]),
   (43907, [5043]), (43908, [5044]), (43909, [5045]), (43910, [5046]), (43911, [5047]), (43912, [5048]),
   (43913, [5049]), (43914, [5050]), (43915, [5051]), (43916, [5052]), (43917, [5053]), (43918, [5054]),
   (43919, [5055]), (43920, [5056]), (43921, [5057]), (43922, [5058]), (43923, [5059]), (43924, [5060]),
   (43925, [5061]), (43926, [5062]), (43927, [5063]), (43928, [5064]), (43929, [5065]), (43930, [5066]),
   (43931, [5067]), (43932, [5068]), (43933, [5069]), (43934, [5070]), (43935, [5071]), (43936, [5072]),
   (43937, [5073]), (43938, [5074]), (43939, [5075]), (43940, [5076]), (43941, [5077]), (43942, [5078]),
   (43943, [5079]), (43944, [5080]), (43945, [5081]), (43946, [5082]), (43947, [5083]), (43948, [5084]),
   (43949, [5085]), (43950, [5086]), (43951, [5087]), (43952, [5088]), (43953, [5089]), (43954, [5090]),
   (43955, [5091]), (43956, [5092]), (43957, [5093]), (43958, [5094]), (43959, [5095]), (43960, [5096]),
   (43961, [5097]), (43962, [5098]), (43963, [5099]), (43964, [5100]), (43965, [5101]), (43966, [5102]),
   (43967, [5103]), (64256, [70, 70]), (64257, [70, 73]), (64258, [70, 76]), (64259, [70, 70, 73]), (64260, [70, 70, 76]),
   (64261, [83, 84]), (64262, [83, 84]), (64275, [1348, 1350]), (64276, [1348, 1333]), (64277, [1348, 1339]), (64278, [1358, 1350]),
   (64279, [1348, 1341]), (65345, [65313]), (65346, [65314]), (65347, [65315]), (65348, [65316]), (65349, [65317]),
   (65350, [65318]), (65351, [65319]), (65352, [65320]), (65353, [65321]), (65354, [65322]), (65355, [65323]),
   (65356, [65324]), (65357, [65325]), (65358, [65326]), (65359, [65327]), (65360, [65328]), (65361, [65329]),
   (65362, [65330]), (65363, [65331]), (65364, [65332]), (65365, [65333]), (65366, [65334]), (65367, [65335]),
   (65368, [65336]), (65369, [65337]), (65370, [65338]), (66600, [66560]), (66601, [66561]), (66602, [66562]),
   (66603, [66563]), (66604, [66564]), (66605, [66565]), (66606, [66566]), (66607, [66567]), (66608, [66568]),
   (66609, [66569]), (66610, [66570]), (66611, [66571]), (66612, [66572]), (66613, [66573]), (66614, [66574]),
   (66615, [66575]), (66616, [66576]), (66617, [66577]), (66618, [66578]), (66619, [66579]), (66620, [66580]),
   (66621, [66581]), (66622, [66582]), (66623, [66583]), (66624, [66584]), (66625, [66585]), (66626, [66586]),
   (66627, [66587]), (66628, [66588]), (66629, [66589]), (66630, [66590]), (66631, [66591]), (66632, [66592]),
   (66633, [66593]), (66634, [66594]), (66635, [66595]), (66636, [66596]), (66637, [66597]), (66638, [66598]),
   (66639, [66599]), (66776, [66736]), (66777, [66737]), (66778, [66738]), (66779, [66739]), (66780, [66740]),
   (66781, [66741]), (66782, [66742]), (66783, [66743]), (66784, [66744]), (66785, [66745]), (66786, [66746]),
   (66787, [66747]), (66788, [66748]), (66789, [66749]), (66790, [66750]), (66791, [66751]), (66792, [66752]),
   (66793, [66753]), (66794, [66754]), (66795, [66755]), (66796, [66756]), (66797, [66757]), (66798, [66758]),
   (66799, [66759]), (66800, [66760]), (66801, [66761]), (66802, [66762]), (66803, [66763]), (66804, [66764]),
   (66805, [66765]), (66806, [66766]), (66807, [66767]), (66808, [66768]), (66809, [66769]), (66810, [66770]),
   (66811, [66771]), (66967, [66928]), (66968, [66929]), (66969, [66930]), (66970, [66931]), (66971, [66932]),
   (66972, [66933]), (66973, [66934]), (66974, [66935]), (66975, [66936]), (66976, [66937]), (66977, [66938]),
   (66979, [66940]), (66980, [66941]), (66981, [66942]), (66982, [66943]), (66983, [66944]), (66984, [66945]),
   (66985, [66946]), (66986, [66947]), (66987, [66948]), (66988, [66949]), (66989, [66950]), (66990, [66951]),
   (66991, [66952]), (66992, [66953]), (66993, [66954]), (66995, [66956]), (66996, [66957]), (66997, [66958]),
   (66998, [66959]), (66999, [66960]), (67000, [66961]), (67001, [66962]), (67003, [66964]), (67004, [66965]),
   (68800, [68736]), (68801, [68737]), (68802, [68738]), (68803, [68739]), (68804, [68740]), (68805, [68741]),
   (68806, [68742]), (68807, [68743]), (68808, [68744]), (68809, [68745]), (68810, [68746]), (68811, [68747]),
   (68812, [68748]), (68813, [68749]), (68814, [68750]), (68815, [68751]), (68816, [68752]), (68817, [68753]),
   (68818, [68754]), (68819, [68755]), (68820, [68756]), (68821, [68757]), (68822, [68758]), (68823, [68759]),
   (68824, [68760]), (68825, [68761]), (68826, [68762]), (68827, [68763]), (68828, [68764]), (68829, [68765]),
   (68830, [68766]), (68831, [68767]), (68832, [68768]), (68833, [68769]), (68834, [68770]), (68835, [68771]),
   (68836, [68772]), (68837, [68773]), (68838, [68774]), (68839, [68775]), (68840, [68776]), (68841, [68777]),
   (68842, [68778]), (68843, [68779]), (68844, [68780]), (68845, [68781]), (68846, [68782]), (68847, [68783]),
   (68848, [68784]), (68849, [68785]), (68850, [68786]), (71872, [71840]), (71873, [71841]), (71874, [71842]),
   (71875, [71843]), (71876, [71844]), (71877, [71845]), (71878, [71846]), (71879, [71847]), (71880, [71848]),
   (71881, [71849]), (71882, [71850]), (71883, [71851]), (71884, [71852]), (71885, [71853]), (71886, [71854]),
   (71887, [71855]), (71888, [71856]), (71889, [71857]), (71890, [71858]), (71891, [71859]), (71892, [71860]),
   (71893, [71861]), (71894, [71862]), (71895, [71863]), (71896, [71864]), (71897, [71865]), (71898, [71866]),
   (71899, [71867]), (71900, [71868]), (71901, [71869]), (71902, [71870]), (71903, [71871]), (93792, [93760]),
   (93793, [93761]), (93794, [93762]), (93795, [93763]), (93796, [93764]), (93797, [93765]), (93798, [93766]),
   (93799, [93767]), (93800, [93768]), (93801, [93769]), (93802, [93770]), (93803, [93771]), (93804, [93772]),
   (93805, [93773]), (93806, [93774]), (93807, [93775]), (93808, [93776]), (93809, [93777]), (93810, [93778]),
   (93811, [93779]), (93812, [93780]), (93813, [93781]), (93814, [93782]), (93815, [93783]), (93816, [93784]),
   (93817, [93785]), (93818, [93786]), (93819, [93787]), (93820, [93788]), (93821, [93789]), (93822, [93790]),
   (93823, [93791]), (125218, [125184]), (125219, [125185]), (125220, [125186]), (125221, [125187]), (125222, [125188]),
   (125223, [125189]), (125224, [125190]), (125225, [125191]), (125226, [125192]), (125227, [125193]), (125228, [125194]),
   (125229, [125195]), (125230, [125196]), (125231, [125197]), (125232, [125198]), (125233, [125199]), (125234, [125200]),
   (125235, [125201]), (125236, [125202]), (125237, [125203]), (125238, [125204]), (125239, [125205]), (125240, [125206]),
   (125241, [125207]), (125242, [125208]), (125243, [125209]), (125244, [125210]), (125245, [125211]), (125246, [125212]),
   (125247, [125213]), (125248, [125214]), (125249, [125215]), (125250, [125216]), (125251, [125217])]

/-- The full uppercase of one character under JavaScript
`String.prototype.toUpperCase()`: ASCII characters map through
`Char.toUpper`, other characters through `ucTable` (unmapped code points
are unchanged).  Characters model UTF-16 code units as code points, which
agrees with JavaScript on strings of basic-plane characters. -/
def jsUpperChar (c : Char) : List Char :=
  if c.toNat < 128 then [c.toUpper]
  else
    match ucTable.lookup c.toNat with
    | some cs => cs.map Char.ofNat
    | none => [c]

/-- `getInitials` (src/server.js lines 679-687): `"?"` for a falsy name,
otherwise split on single spaces, take each word's first character
(an empty word contributes nothing, as `undefined` joins as `""`),
keep the first two characters and uppercase them with the Unicode full
case conversion of JavaScript `toUpperCase` (`jsUpperChar`), which may
expand a character. -/
def getInitials (name : Option String) : String :=
  if truthyS name = false then "?"
  else
    String.mk
      (((((jsStr name).data.splitOn ' ').map (fun w => w.take 1)).flatten.take 2).flatMap
        jsUpperChar)

/-! ## Card URLs (src/server.js lines 125 and 290) -/

/-- The card URL embedded in the business-card page's QR code
(src/server.js line 290): a fixed base, independent of the request. -/
def embeddedCardUrl (identifier : String) : String :=
  "https://bizbuz.planetnine.app/card/" ++ identifier

/-- The card URL encoded by the `/qr/:identifier` endpoint
(src/server.js line 125): derived from the incoming request's
protocol and host. -/
def qrEndpointCardUrl (protocol host identifier : String) : String :=
  protocol ++ "://" ++ host ++ "/card/" ++ identifier

/-! ## HTML business-card page (src/server.js `generateBusinessCardPage`, lines 288-630) -/

/-- Static template text number 0 of `generateBusinessCardPage` (src/server.js lines 300-629), up to the `<title>` tag. -/
def cardSeg0a : String :=
  "<!DOCTYPE html>\n<html lang=\"en\">\n<head>\n    <meta charset=\"UTF-8\">\n    <meta name=\"viewport\" content=\"width=device-width, initial-scale=1.0\">\n    "

/-- Static template text number 0 of `generateBusinessCardPage`: document head up to and including the opening `<title>` tag. -/
def cardSeg0 : String :=
  cardSeg0a ++ "<title>"

/-- The closing `</title>` text of the card template. -/
def cardSeg1a : String :=
  " - Digital Business Card</title>"

/-- Whitespace between the `<title>` and `<meta>` lines of the card template. -/
def cardSeg1b : String :=
  "\n    "

/-- The opening of the `<meta name="description">` tag of the card template. -/
def cardSeg1c : String :=
  "<meta name=\"description\" content=\""

/-- Static template text number 1 of `generateBusinessCardPage` (src/server.js lines 300-629). -/
def cardSeg1 : String :=
  cardSeg1a ++ cardSeg1b ++ cardSeg1c

/-- Static template text number 2 of `generateBusinessCardPage` (src/server.js lines 300-629). -/
def cardSeg2 : String :=
  " at "

/-- Static template text number 3 of `generateBusinessCardPage` (src/server.js lines 300-629): style sheet and document body up to the avatar. -/
def cardSeg3a : String :=
  "\">\n    <style>\n        * \x7b\n            margin: 0;\n            padding: 0;\n            box-sizing: border-box;\n        \x7d\n\n        body \x7b\n            font-family: -apple-system, BlinkMacSystemFont, \x27Segoe UI\x27, Roboto, sans-serif;\n            background: linear-gradient(135deg, #0a001a 0%, #1a0033 50%, #0a001a 100%);\n            min-height: 100vh;\n            display: flex;\n            flex-direction: column;\n            align-items: center;\n            justify-content: center;\n            padding: 20px;\n            color: white;\n        \x7d\n\n        .card \x7b\n            background: rgba(255, 255, 255, 0.05);\n            border: 1px solid rgba(16, 185, 129, 0.3);\n            border-radius: 24px;\n            padding: 40px;\n            max-width: 400px;\n            width: 100%;\n            text-align: center;\n            backdrop-filter: blur(10px);\n            box-shadow:\n                0 0 40px rgba(16, 185, 129, 0.1),\n                0 0 80px rgba(139, 92, 246, 0.05);\n            position: relative;\n            overflow: hidden;\n        \x7d\n\n        .card::before \x7b\n            content: \x27\x27;\n            position: absolute;\n            top: -50%;\n            left: -50%;\n            width: 200%;\n            height: 200%;\n            background: radial-gradient(circle, rgba(16, 185, 129, 0.1) 0%, transparent 50%);\n            animation: pulse 4s ease-in-out infinite;\n        \x7d\n\n        @keyframes pulse \x7b\n            0%, 100% \x7b opacity: 0.5; transform: scale(1); \x7d\n            50% \x7b opacity: 1; transform: scale(1.1); \x7d\n        \x7d\n\n        .card-content \x7b\n            position: relative;\n            z-index: 1;\n        \x7d\n\n        .avatar \x7b\n            width: 100px;\n            height: 100px;\n            border-radius: 50%;\n            background: linear-gradient(135deg, #10b981 0%, #059669 100%);\n            margin: 0 auto 20px;\n            display: flex;\n            align-items: center;\n            justify-content: center;\n            font-size: 40px;\n            font-weight: bold;\n            color: white;\n            box-shadow: 0 0 30px rgba(16, 185, 129, 0.4);\n        \x7d\n\n        .name \x7b\n            font-size: 28px;\n            font-weight: 700;\n            margin-bottom: 8px;\n            background: linear-gradient(135deg, #10b981 0%, #a78bfa 100%);\n            -webkit-background-clip: text;\n            -webkit-text-fill-color: transparent;\n            background-clip: text;\n        \x7d\n\n        .title \x7b\n            font-size: 16px;\n            color: rgba(167, 139, 250, 0.9);\n            margin-bottom: 4px;\n        \x7d\n\n        .company \x7b\n            font-size: 14px;\n            color: rgba(255, 255, 255, 0.6);\n            margin-bottom: 20px;\n        \x7d\n\n        .bio \x7b\n            font-size: 14px;\n            color: rgba(255, 255, 255, 0.7);\n            line-height: 1.6;\n            margin-bottom: 24px;\n            font-style: italic;\n        \x7d\n\n        .contact-info \x7b\n            text-align: left;\n            margin-bottom: 24px;\n        \x7d\n\n        .contact-item \x7b\n            display: flex;\n            align-items: center;\n            gap: 12px;\n            padding: 10px 0;\n            border-bottom: 1px solid rgba(255, 255, 255, 0.1);\n            color: rgba(255, 255, 255, 0.8);\n            text-decoration: none;\n            transition: color 0.2s;\n        \x7d\n\n        .contact-item:hover \x7b\n            color: #10b981;\n        \x7d\n\n        .contact-item:last-child \x7b\n            border-bottom: none;\n        \x7d\n\n        .contact-icon \x7b\n            width: 20px;\n            text-align: center;\n            color: #10b981;\n        \x7d\n\n        .qr-section \x7b\n            margin-top: 24px;\n            padding-top: 24px;\n            border-top: 1px solid rgba(255, 255, 255, 0.1);\n        \x7d\n\n        .qr-code \x7b\n            background: #1a0033;\n            padding: 10px;\n            border-radius: 12px;\n            display: inline-block;\n            margin-bottom: 12px;\n        \x7d\n\n        .qr-code img \x7b\n            display: block;\n        \x7d\n\n        .qr-label \x7b\n            font-size: 12px;\n            color: rgba(255, 255, 255, 0.5);\n        \x7d\n\n        .actions \x7b\n            display: flex;\n            gap: 12px;\n            margin-top: 24px;\n        \x7d\n\n        .btn \x7b\n            flex: 1;\n            padding: 14px 20px;\n            border: none;\n            border-radius: 12px;\n            font-size: 14px;\n            font-weight: 600;\n            cursor: pointer;\n            transition: all 0.2s;\n            text-decoration: none;\n            display: flex;\n            align-items: center;\n            justify-content: center;\n            gap: 8px;\n        \x7d\n\n        .btn-primary \x7b\n            background: linear-gradient(135deg, #10b981 0%, #059669 100%);\n            color: white;\n            box-shadow: 0 4px 20px rgba(16, 185, 129, 0.3);\n        \x7d\n\n        .btn-primary:hover \x7b\n            transform: translateY(-2px);\n            box-shadow: 0 6px 30px rgba(16, 185, 129, 0.4);\n        \x7d\n\n        .btn-secondary \x7b\n            background: rgba(255, 255, 255, 0.1);\n            color: white;\n            border: 1px solid rgba(255, 255, 255, 0.2);\n        \x7d\n\n        .btn-secondary:hover \x7b\n            background: rgba(255, 255, 255, 0.15);\n        \x7d\n\n        .footer \x7b\n            margin-top: 30px;\n            text-align: center;\n            color: rgba(255, 255, 255, 0.4);\n            font-size: 12px;\n        \x7d\n\n        .footer a \x7b\n            color: #10b981;\n            text-decoration: none;\n        \x7d\n\n        /* Floating particles */\n        .particle \x7b\n            position: fixed;\n            width: 4px;\n            height: 4px;\n            background: #10b981;\n            border-radius: 50%;\n            opacity: 0.3;\n            animation: float 10s infinite;\n        \x7d\n\n        @keyframes float \x7b\n            0%, 100% \x7b transform: translateY(100vh) rotate(0deg); opacity: 0; \x7d\n            10% \x7b opacity: 0.3; \x7d\n            90% \x7b opacity: 0.3; \x7d\n            100% \x7b transform: translateY(-100vh) rotate(720deg); opacity: 0; \x7d\n        \x7d\n    </style>\n</head>\n<body>\n    <!-- Floating particles -->\n    <div class=\"particle\" style=\"left: 10%; animation-delay: 0s;\"></div>\n    <div class=\"particle\" style=\"left: 30%; animation-delay: 2s;\"></div>\n    <div class=\"particle\" style=\"left: 50%; animation-delay: 4s;\"></div>\n    <div class=\"particle\" style=\"left: 70%; animation-delay: 6s;\"></div>\n    <div class=\"particle\" style=\"left: 90%; animation-delay: 8s;\"></div>\n\n    <div class=\"card\">\n        <div class=\"card-content\">\n            "

/-- Static template text number 3 of `generateBusinessCardPage`, ending with the opening avatar `div`. -/
def cardSeg3 : String :=
  cardSeg3a ++ "<div class=\"avatar\">"

/-- Whitespace between the avatar and the name heading of the card template. -/
def cardSeg4b : String :=
  "\n\n            "

/-- Static template text number 4 of `generateBusinessCardPage` (src/server.js lines 300-629). -/
def cardSeg4 : String :=
  "</div>" ++ cardSeg4b ++ "<h1 class=\"name\">"

/-- Whitespace after the name heading of the card template. -/
def cardSeg5b : String :=
  "\n            "

/-- Static template text number 5 of `generateBusinessCardPage` (src/server.js lines 300-629). -/
def cardSeg5 : String :=
  "</h1>" ++ cardSeg5b

/-- Static template text number 6 of `generateBusinessCardPage` (src/server.js lines 300-629). -/
def cardSeg6 : String :=
  "\n            "

/-- Static template text number 7 of `generateBusinessCardPage` (src/server.js lines 300-629). -/
def cardSeg7 : String :=
  "\n            "

/-- Static template text number 8 of `generateBusinessCardPage` (src/server.js lines 300-629). -/
def cardSeg8 : String :=
  "\n\n            <div class=\"contact-info\">\n                "

/-- Static template text number 9 of `generateBusinessCardPage` (src/server.js lines 300-629). -/
def cardSeg9 : String :=
  "\n\n                "

/-- Static template text number 10 of `generateBusinessCardPage` (src/server.js lines 300-629). -/
def cardSeg10 : String :=
  "\n\n                "

/-- Static template text number 11 of `generateBusinessCardPage` (src/server.js lines 300-629). -/
def cardSeg11 : String :=
  "\n\n                "

/-- Static template text number 12 of `generateBusinessCardPage` (src/server.js lines 300-629). -/
def cardSeg12 : String :=
  "\n            </div>\n\n            <div class=\"qr-section\">\n                <div class=\"qr-code\">\n                    <img src=\""

/-- Static template text number 13 of `generateBusinessCardPage` (src/server.js lines 300-629). -/
def cardSeg13 : String :=
  "\" alt=\"QR Code\" width=\"150\" height=\"150\">\n                </div>\n                <p class=\"qr-label\">Scan to save contact</p>\n            </div>\n\n            <div class=\"actions\">\n                <a href=\"/vcard/"

/-- Static template text number 14 of `generateBusinessCardPage` (src/server.js lines 300-629). -/
def cardSeg14 : String :=
  "\" class=\"btn btn-primary\" download>\n                    Save Contact\n                </a>\n                <button class=\"btn btn-secondary\" onclick=\"shareCard()\">\n                    Share\n                </button>\n            </div>\n        </div>\n    </div>\n\n    <div class=\"footer\">\n        <p>Powered by <a href=\"https://planetnine.app\">Planet Nine</a></p>\n    </div>\n\n    <script>\n        async function shareCard() \x7b\n            const url = window.location.href;\n            const title = \x27"

/-- Static template text number 15 of `generateBusinessCardPage` (src/server.js lines 300-629). -/
def cardSeg15 : String :=
  " - Business Card\x27;\n\n            if (navigator.share) \x7b\n                try \x7b\n                    await navigator.share(\x7b title, url \x7d);\n                \x7d catch (err) \x7b\n                    copyToClipboard(url);\n                \x7d\n            \x7d else \x7b\n                copyToClipboard(url);\n            \x7d\n        \x7d\n\n        function copyToClipboard(text) \x7b\n            navigator.clipboard.writeText(text).then(() => \x7b\n                alert(\x27Link copied to clipboard!\x27);\n            \x7d).catch(() => \x7b\n                prompt(\x27Copy this link:\x27, text);\n            \x7d);\n        \x7d\n    </script>\n</body>\n</html>"

/-- The `website` display text (src/server.js line 570):
`profile.website.replace(/^https?:\/\//, '')` strips one leading
`http://` or `https://` scheme. -/
def stripScheme (w : String) : String :=
  if w.startsWith "https://" then w.drop 8
  else if w.startsWith "http://" then w.drop 7
  else w

/-- The `title` ternary block of the card template (src/server.js line 548). -/
def titleBlock (p : Profile) : String :=
  if truthyS p.title then
    "<p class=\"title\">" ++ escapeHtml p.title ++ "</p>"
  else ""

/-- The `company` ternary block of the card template (src/server.js line 549). -/
def companyBlock (p : Profile) : String :=
  if truthyS p.company then
    "<p class=\"company\">" ++ escapeHtml p.company ++ "</p>"
  else ""

/-- The `bio` ternary block of the card template (src/server.js line 550). -/
def bioBlock (p : Profile) : String :=
  if truthyS p.bio then
    "<p class=\"bio\">\"" ++ escapeHtml p.bio ++ "\"</p>"
  else ""

/-- The `email` ternary block of the card template (src/server.js lines 553-558). -/
def emailBlock (p : Profile) : String :=
  if truthyS p.email then
    "\n                <a href=\"mailto:" ++ escapeHtml p.email
      ++ "\" class=\"contact-item\">\n                    <span class=\"contact-icon\">@</span>\n                    <span>"
      ++ escapeHtml p.email ++ "</span>\n                </a>\n                "
  else ""

/-- The `phone` ternary block of the card template (src/server.js lines 560-565). -/
def phoneBlock (p : Profile) : String :=
  if truthyS p.phone then
    "\n                <a href=\"tel:" ++ escapeHtml p.phone
      ++ "\" class=\"contact-item\">\n                    <span class=\"contact-icon\">#</span>\n                    <span>"
      ++ escapeHtml p.phone ++ "</span>\n                </a>\n                "
  else ""

/-- The `website` ternary block of the card template (src/server.js lines 567-572). -/
def websiteBlock (p : Profile) : String :=
  if truthyS p.website then
    "\n                <a href=\"" ++ escapeHtml p.website
      ++ "\" target=\"_blank\" class=\"contact-item\">\n                    <span class=\"contact-icon\">~</span>\n                    <span>"
      ++ escapeHtml (some (stripScheme (jsStr p.website)))
      ++ "</span>\n                </a>\n                "
  else ""

/-- The `location` ternary block of the card template (src/server.js lines 574-579). -/
def locationBlock (p : Profile) : String :=
  if truthyS p.location then
    "\n                <div class=\"contact-item\">\n                    <span class=\"contact-icon\">*</span>\n                    <span>"
      ++ escapeHtml p.location ++ "</span>\n                </div>\n                "
  else ""

/-- `generateBusinessCardPage` (src/server.js lines 288-630): the template
literal, as the concatenation of its static pieces and interpolations in
document order.  `qrDataUrl` is the base64 data URI produced by the QR
library for `embeddedCardUrl identifier` and is passed in as a parameter. -/
def generateBusinessCardPage (p : Profile) (qrDataUrl identifier : String) : String :=
  cardSeg0 ++ jsOr p.name "BizBuz"
  ++ cardSeg1 ++ jsOr p.title ""
  ++ cardSeg2 ++ jsOr p.company "Planet Nine"
  ++ cardSeg3 ++ getInitials p.name
  ++ cardSeg4 ++ escapeHtml (some (jsOr p.name "Anonymous"))
  ++ cardSeg5 ++ titleBlock p
  ++ cardSeg6 ++ companyBlock p
  ++ cardSeg7 ++ bioBlock p
  ++ cardSeg8 ++ emailBlock p
  ++ cardSeg9 ++ phoneBlock p
  ++ cardSeg10 ++ websiteBlock p
  ++ cardSeg11 ++ locationBlock p
  ++ cardSeg12 ++ qrDataUrl
  ++ cardSeg13 ++ identifier
  ++ cardSeg14 ++ escapeHtml (some (jsOr p.name "Contact"))
  ++ cardSeg15

/-! ## Concrete profiles used as test inputs -/

/-- A profile whose only truthy field is the two-token name `"Ada Lovelace"`. -/
def adaOnlyProfile : Profile := { name := some "Ada Lovelace" }

/-- A profile whose only truthy field is the single-token name `"Cher"`. -/
def cherOnlyProfile : Profile := { name := some "Cher" }

/-- A profile named `"Jane O'Brien!"` (for the filename sanitization test). -/
def janeProfile : Profile := { name := some "Jane O\x27Brien!" }

/-- A profile whose text fields contain HTML-special characters. -/
def angleProfile : Profile :=
  { name := some "<b>", title := some "<i>", company := some "<c>" }

/-- A profile whose bio contains a raw `<script>` tag. -/
def scriptBioProfile : Profile :=
  { bio := some "hey <script>alert(1)</script>" }

/-- A profile with every text field truthy and containing an HTML-special
character. -/
def richProfile : Profile :=
  { name := some "N<me", title := some "T<t", company := some "C>o",
    email := some "e@x<", phone := some "+1<2", website := some "https://w<.io",
    location := some "L<oc", bio := some "B<io" }

/-- Modelled from the spec reading asserted by the claim: a variant of
`generateBusinessCardPage` in which *every* interpolated profile text
field — including the document title, the meta description and the avatar
initials — passes through `escapeHtml` before insertion.  It is compared
against the actual `generateBusinessCardPage` from the source. -/
def escapedCardPage (p : Profile) (qrDataUrl identifier : String) : String :=
  cardSeg0 ++ escapeHtml (some (jsOr p.name "BizBuz"))
  ++ cardSeg1 ++ escapeHtml (some (jsOr p.title ""))
  ++ cardSeg2 ++ escapeHtml (some (jsOr p.company "Planet Nine"))
  ++ cardSeg3 ++ escapeHtml (some (getInitials p.name))
  ++ cardSeg4 ++ escapeHtml (some (jsOr p.name "Anonymous"))
  ++ cardSeg5 ++ titleBlock p
  ++ cardSeg6 ++ companyBlock p
  ++ cardSeg7 ++ bioBlock p
  ++ cardSeg8 ++ emailBlock p
  ++ cardSeg9 ++ phoneBlock p
  ++ cardSeg10 ++ websiteBlock p
  ++ cardSeg11 ++ locationBlock p
  ++ cardSeg12 ++ qrDataUrl
  ++ cardSeg13 ++ identifier
  ++ cardSeg14 ++ escapeHtml (some (jsOr p.name "Contact"))
  ++ cardSeg15

/-! ## Helper lemmas -/

theorem truthyS_some {s : String} (h : s ≠ "") : truthyS (some s) = true := by
  simp [truthyS, h]

theorem jsOr_of_some {s : String} (h : s ≠ "") (d : String) :
    jsOr (some s) d = s := by
  simp [jsOr, truthyS, jsStr, h]

theorem replaceChar_flatMap (x : Char) (rep : List Char) (f : Char → List Char)
    (l : List Char) :
    replaceChar x rep (l.flatMap f) = l.flatMap (fun c => replaceChar x rep (f c)) := by
  simp [replaceChar, List.flatMap_assoc]

theorem escape_headStep (c : Char) :
    replaceChar (Char.ofNat 39) "&#039;".data
      (replaceChar (Char.ofNat 34) "&quot;".data
        (replaceChar '>' "&gt;".data
          (replaceChar '<' "&lt;".data
            (if c = '&' then "&amp;".data else [c])))) = escChar c := by
  by_cases h1 : c = '&'
  · subst h1; decide
  by_cases h2 : c = '<'
  · subst h2; decide
  by_cases h3 : c = '>'
  · subst h3; decide
  by_cases h4 : c = Char.ofNat 34
  · subst h4; decide
  by_cases h5 : c = Char.ofNat 39
  · subst h5; decide
  simp [replaceChar, escChar, h1, h2, h3, h4, h5]

theorem escape_chain (l : List Char) :
    replaceChar (Char.ofNat 39) "&#039;".data
      (replaceChar (Char.ofNat 34) "&quot;".data
        (replaceChar '>' "&gt;".data
          (replaceChar '<' "&lt;".data
            (replaceChar '&' "&amp;".data l)))) = l.flatMap escChar := by
  have h0 : replaceChar '&' "&amp;".data l
      = l.flatMap (fun c => if c = '&' then "&amp;".data else [c]) := rfl
  rw [h0, replaceChar_flatMap, replaceChar_flatMap, replaceChar_flatMap,
    replaceChar_flatMap]
  exact congrArg _ (funext fun c => escape_headStep c)

/-- `escapeHtml` agrees with the one-pass character-wise escaping `escChar`
on every string, empty or not. -/
theorem escapeHtml_eq_flatMap (s : String) :
    escapeHtml (some s) = String.mk (s.data.flatMap escChar) := by
  by_cases hs : s = ""
  · subst hs; rfl
  · show (if truthyS (some s) = false then "" else _) = _
    rw [truthyS_some hs]
    simp only [Bool.true_eq_false, if_false, jsStr, Option.getD_some]
    exact congrArg String.mk (escape_chain s.data)

theorem escChar_no_lt (c : Char) : '<' ∉ escChar c := by
  by_cases h1 : c = '&'
  · subst h1; decide
  by_cases h2 : c = '<'
  · subst h2; decide
  by_cases h3 : c = '>'
  · subst h3; decide
  by_cases h4 : c = Char.ofNat 34
  · subst h4; decide
  by_cases h5 : c = Char.ofNat 39
  · subst h5; decide
  simp [escChar, h1, h2, h3, h4, h5]
  intro h; exact h2 h.symm

theorem no_lt_in_escaped (l : List Char) : '<' ∉ l.flatMap escChar := by
  intro hmem
  obtain ⟨c, -, hc⟩ := List.mem_flatMap.mp hmem
  exact escChar_no_lt c hc

/-! ## Claim C1 -/

/-- Claim C1: for every identifier, if the upstream profile fetch fails
(network error or non-2xx response), the resolver returns the fixed
built-in demo profile (name `"Ada Lovelace"`), never `null`, when the
identifier is the literal `"demo"`, and returns `null` (not found) for
every other identifier. -/
theorem claim1_fetch_failure (o : FetchOutcome) (id : String)
    (hfail : o = .netError ∨ o = .httpError) :
    (id = "demo" →
      fetchProfile o id = some getDemoProfile ∧
      jsGet getDemoProfile "name" = some (.str "Ada Lovelace") ∧
      fetchProfile o id ≠ none) ∧
    (id ≠ "demo" → fetchProfile o id = none) := by
  constructor
  · intro hd
    subst hd
    rcases hfail with h | h <;> subst h <;>
      exact ⟨rfl, rfl, by simp [fetchProfile]⟩
  · intro hd
    rcases hfail with h | h <;> subst h <;> simp [fetchProfile, hd]

theorem claim1_fetch_failure_witness :
    fetchProfile .netError "demo" = some getDemoProfile ∧
    fetchProfile .httpError "someone-else" = none :=
  ⟨((claim1_fetch_failure _ _ (Or.inl rfl)).1 rfl).1,
   (claim1_fetch_failure _ _ (Or.inr rfl)).2 (by decide)⟩

/-! ## Claim C2 -/

/-- Claim C2 counterexample: for the name-only profile `"Ada Lovelace"`,
the vCard is the five lines joined by CRLF *separators*; the final
`END:VCARD` line is not terminated by CRLF, so the output is not the
claimed string with a trailing CRLF. -/
theorem claim2_counterexample :
    generateVCard adaOnlyProfile =
      "BEGIN:VCARD\r\nVERSION:3.0\r\nFN:Ada Lovelace\r\nN:Lovelace;Ada;;;\r\nEND:VCARD" ∧
    generateVCard adaOnlyProfile ≠
      "BEGIN:VCARD\r\nVERSION:3.0\r\nFN:Ada Lovelace\r\nN:Lovelace;Ada;;;\r\nEND:VCARD\r\n" := by
  constructor <;> decide

/-- Claim C2 (amended): for every profile whose only truthy field is its
name, the vCard consists of exactly the lines `BEGIN:VCARD`, `VERSION:3.0`,
`FN:<name>`, the `N:` line, `END:VCARD`, in that order, with consecutive
lines separated by CRLF; the final `END:VCARD` is not followed by CRLF
(the output's last character is `'D'`). -/
theorem claim2_name_only_vcard (p : Profile) (nm : String)
    (hn : p.name = some nm) (hne : nm ≠ "")
    (ht : truthyS p.title = false) (hc : truthyS p.company = false)
    (he : truthyS p.email = false) (hp : truthyS p.phone = false)
    (hw : truthyS p.website = false) (hl : truthyS p.location = false)
    (hb : truthyS p.bio = false) (hs : p.social = none) :
    vcardLines p = ["BEGIN:VCARD", "VERSION:3.0", "FN:" ++ nm, nLine nm, "END:VCARD"] ∧
    generateVCard p =
      "BEGIN:VCARD\r\nVERSION:3.0\r\nFN:" ++ nm ++ "\r\n" ++ nLine nm ++ "\r\nEND:VCARD" ∧
    (generateVCard p).data.getLast? = some 'D' := by
  have hnm : truthyS (some nm) = true := truthyS_some hne
  have hlines :
      vcardLines p = ["BEGIN:VCARD", "VERSION:3.0", "FN:" ++ nm, nLine nm, "END:VCARD"] := by
    simp [vcardLines, vcardTailLines, hn, hnm, ht, hc, he, hp, hw, hl, hb, hs, jsStr]
  have hstr : generateVCard p =
      "BEGIN:VCARD\r\nVERSION:3.0\r\nFN:" ++ nm ++ "\r\n" ++ nLine nm ++ "\r\nEND:VCARD" := by
    rw [generateVCard, hlines]
    simp [String.intercalate, String.intercalate.go, String.append_assoc]
    rfl
  refine ⟨hlines, hstr, ?_⟩
  rw [hstr]
  rw [show ("BEGIN:VCARD\r\nVERSION:3.0\r\nFN:" ++ nm ++ "\r\n" ++ nLine nm ++ "\r\nEND:VCARD" : String)
      = ("BEGIN:VCARD\r\nVERSION:3.0\r\nFN:" ++ nm ++ "\r\n" ++ nLine nm) ++ "\r\nEND:VCARD"
    from by simp [String.append_assoc]]
  rw [String.data_append, List.getLast?_append]
  rfl

theorem claim2_name_only_vcard_witness :
    vcardLines cherOnlyProfile =
      ["BEGIN:VCARD", "VERSION:3.0", "FN:" ++ "Cher", nLine "Cher", "END:VCARD"] ∧
    generateVCard cherOnlyProfile =
      "BEGIN:VCARD\r\nVERSION:3.0\r\nFN:" ++ "Cher" ++ "\r\n" ++ nLine "Cher" ++ "\r\nEND:VCARD" ∧
    (generateVCard cherOnlyProfile).data.getLast? = some 'D' :=
  claim2_name_only_vcard cherOnlyProfile "Cher" rfl (by decide)
    rfl rfl rfl rfl rfl rfl rfl rfl

/-! ## Claim C4 -/

/-- Claim C4: for every profile with a truthy name, the vCard lines are the
two fixed header lines, then `FN:<name>` immediately followed by the `N:`
line obtained by splitting the name on single spaces (two or more tokens:
`N:<rest joined by spaces>;<first>;;;`, otherwise `N:;<name>;;;`); in
particular `"Ada Lovelace"` yields `N:Lovelace;Ada;;;` and `"Cher"` yields
`N:;Cher;;;`. -/
theorem claim4_n_line (p : Profile) (nm : String)
    (hn : p.name = some nm) (hne : nm ≠ "") :
    vcardLines p
      = ["BEGIN:VCARD", "VERSION:3.0", "FN:" ++ nm, nLine nm] ++ vcardTailLines p ∧
    nLine nm = (if (nm.data.splitOn ' ').length ≥ 2 then
        "N:" ++ String.mk (List.intercalate [' '] ((nm.data.splitOn ' ').drop 1)) ++ ";"
          ++ String.mk ((nm.data.splitOn ' ').headD []) ++ ";;;"
      else "N:;" ++ nm ++ ";;;") ∧
    nLine "Ada Lovelace" = "N:Lovelace;Ada;;;" ∧
    nLine "Cher" = "N:;Cher;;;" := by
  refine ⟨?_, rfl, by decide, by decide⟩
  simp [vcardLines, hn, hne, truthyS, jsStr]

theorem claim4_n_line_witness :
    vcardLines adaOnlyProfile
      = ["BEGIN:VCARD", "VERSION:3.0", "FN:" ++ "Ada Lovelace", nLine "Ada Lovelace"]
        ++ vcardTailLines adaOnlyProfile ∧
    nLine "Ada Lovelace" = "N:Lovelace;Ada;;;" :=
  ⟨(claim4_n_line adaOnlyProfile "Ada Lovelace" rfl (by decide)).1,
   (claim4_n_line adaOnlyProfile "Ada Lovelace" rfl (by decide)).2.2.1⟩

/-! ## Claim C6 -/

/-- Claim C6: the vCard download filename takes the profile name (or the
literal `"contact"` when the name is falsy), appends `.vcf`, and replaces
every character outside `[A-Za-z0-9.-]` with `_`; in particular the name
`"Jane O'Brien!"` yields `Jane_O_Brien_.vcf`. -/
theorem claim6_filename :
    (∀ p nm, p.name = some nm → nm ≠ "" →
      vcardFilename p = String.mk ((nm ++ ".vcf").data.map sanitizeChar)) ∧
    (∀ p, truthyS p.name = false → vcardFilename p = "contact.vcf") ∧
    (∀ c, (c.isAlpha || c.isDigit || c = '.' || c = '-') = false → sanitizeChar c = '_') ∧
    (∀ c, (c.isAlpha || c.isDigit || c = '.' || c = '-') = true → sanitizeChar c = c) ∧
    vcardFilename janeProfile = "Jane_O_Brien_.vcf" := by
  refine ⟨?_, ?_, ?_, ?_, by decide⟩
  · intro p nm hn hne
    simp [vcardFilename, jsOr, hn, truthyS, hne, jsStr]
  · intro p h
    simp only [vcardFilename, jsOr, h, Bool.false_eq_true, if_false]
    decide
  · intro c h; simp [sanitizeChar, h]
  · intro c h; simp [sanitizeChar, h]

theorem claim6_filename_witness :
    vcardFilename janeProfile
      = String.mk (("Jane O\x27Brien!" ++ ".vcf").data.map sanitizeChar) ∧
    vcardFilename { } = "contact.vcf" :=
  ⟨claim6_filename.1 janeProfile "Jane O\x27Brien!" rfl (by decide),
   claim6_filename.2.1 { } rfl⟩

/-! ## Claim C8 -/

/-- Claim C8: the vCard renderer is deterministic — rendering the same
resolved profile twice produces byte-identical vCard text; the output is a
pure function of the profile argument alone. -/
theorem claim8_vcard_deterministic (p : Profile) :
    generateVCard p = generateVCard p := rfl

/-! ## Claim C9 -/

/-- Claim C9: for every 2xx upstream response whose JSON body is an object,
the resolver returns the body's truthy `profile` field if present, and
otherwise the whole body object; a successful response never yields the
not-found result, even for `{}` or a `null` `profile` field. -/
theorem claim9_success_unwrap (fs : List (String × JVal)) (id : String) :
    fetchProfile (.ok (.obj fs)) id ≠ none ∧
    (∀ v, fs.lookup "profile" = some v → jsTruthy v = true →
      fetchProfile (.ok (.obj fs)) id = some v) ∧
    (∀ v, fs.lookup "profile" = some v → jsTruthy v = false →
      fetchProfile (.ok (.obj fs)) id = some (.obj fs)) ∧
    (fs.lookup "profile" = none → fetchProfile (.ok (.obj fs)) id = some (.obj fs)) := by
  have hunfold : fetchProfile (.ok (.obj fs)) id
      = (match fs.lookup "profile" with
         | some v => if jsTruthy v then some v else some (.obj fs)
         | none => some (.obj fs)) := rfl
  refine ⟨?_, ?_, ?_, ?_⟩
  · rw [hunfold]
    rcases h : fs.lookup "profile" with - | v
    · simp
    · by_cases hv : jsTruthy v <;> simp [hv]
  · intro v hl hv; rw [hunfold, hl]; simp [hv]
  · intro v hl hv; rw [hunfold, hl]; simp [hv]
  · intro hl; rw [hunfold, hl]

theorem claim9_success_unwrap_witness :
    fetchProfile (.ok (.obj [("profile", JVal.null)])) "x"
      = some (.obj [("profile", JVal.null)]) ∧
    fetchProfile (.ok (.obj [])) "x" ≠ none :=
  ⟨(claim9_success_unwrap [("profile", JVal.null)] "x").2.2.1 JVal.null rfl rfl,
   (claim9_success_unwrap [] "x").1⟩

/-! ## Claim C10 -/

/-- Claim C10 counterexample: the name `"ßa ßb"` has initials `"ßß"`
before uppercasing, and the Unicode full case conversion of
`toUpperCase` expands each `"ß"` to `"SS"`, so `getInitials` returns
`"SSSS"` — four characters — refuting the claimed two-character bound. -/
theorem claim10_counterexample :
    getInitials (some "ßa ßb") = "SSSS" ∧
    2 < (getInitials (some "ßa ßb")).length := by
  constructor <;> decide

/-- Claim C10 (amended): `getInitials` returns `"?"` for an absent or
empty name; otherwise it concatenates the first character of every
space-separated word and keeps at most the first two characters — so at
most two characters *before* uppercasing — then uppercases them with the
Unicode full case conversion of JavaScript `toUpperCase`, which may
expand a character (so the result may exceed two characters); a name
consisting only of spaces yields `""`, not `"?"`. -/
theorem claim10_initials :
    (∀ s : String, s ≠ "" → getInitials (some s)
      = String.mk ((((s.data.splitOn ' ').map (fun w => w.take 1)).flatten.take 2).flatMap
          jsUpperChar)) ∧
    (∀ s : String, (((s.data.splitOn ' ').map (fun w => w.take 1)).flatten.take 2).length ≤ 2) ∧
    getInitials none = "?" ∧
    getInitials (some "") = "?" ∧
    getInitials (some "   ") = "" ∧
    getInitials (some "   ") ≠ "?" ∧
    getInitials (some "Ada Lovelace") = "AL" ∧
    getInitials (some "émile curie") = "ÉC" := by
  have hgen : ∀ s : String, s ≠ "" → getInitials (some s)
      = String.mk ((((s.data.splitOn ' ').map (fun w => w.take 1)).flatten.take 2).flatMap
          jsUpperChar) := by
    intro s hs
    simp [getInitials, truthyS, hs, jsStr]
  refine ⟨hgen, ?_, rfl, rfl, by decide, by decide, by decide, by decide⟩
  intro s
  rw [List.length_take]
  omega

theorem claim10_initials_witness :
    getInitials (some "Ada Lovelace")
      = String.mk (((("Ada Lovelace".data.splitOn ' ').map (fun w => w.take 1)).flatten.take 2).flatMap
          jsUpperChar) ∧
    ((("Ada Lovelace".data.splitOn ' ').map (fun w => w.take 1)).flatten.take 2).length ≤ 2 :=
  ⟨claim10_initials.1 "Ada Lovelace" (by decide),
   claim10_initials.2.1 "Ada Lovelace"⟩

/-! ## Claim C7 -/

/-- Claim C7: for every profile whose bio contains `<script>`, the bio
insertion point of the card page carries the escaped form
`&lt;script&gt;`, and the escaped bio never contains the raw `<script>`. -/
theorem claim7_bio_script (p : Profile) (b : String) (hb : p.bio = some b)
    (hin : "<script>".data <:+: b.data) :
    ("&lt;script&gt;".data <:+: (escapeHtml p.bio).data) ∧
    ¬ ("<script>".data <:+: (escapeHtml p.bio).data) ∧
    ("&lt;script&gt;".data <:+: (bioBlock p).data) := by
  have hbne : b ≠ "" := by
    rintro rfl
    exact absurd hin.length_le (by decide)
  have hesc : escapeHtml (some b) = String.mk (b.data.flatMap escChar) :=
    escapeHtml_eq_flatMap b
  obtain ⟨x, y, hxy⟩ := hin
  have hflat : (escapeHtml (some b)).data
      = x.flatMap escChar ++ "&lt;script&gt;".data ++ y.flatMap escChar := by
    rw [hesc]
    show b.data.flatMap escChar = _
    rw [← hxy, List.flatMap_append, List.flatMap_append,
      show "<script>".data.flatMap escChar = "&lt;script&gt;".data from by decide]
  have hpos : "&lt;script&gt;".data <:+: (escapeHtml (some b)).data := by
    rw [hflat]
    exact ⟨x.flatMap escChar, y.flatMap escChar, rfl⟩
  have hneg : ¬ ("<script>".data <:+: (escapeHtml (some b)).data) := by
    intro hcon
    have hlt : '<' ∈ (escapeHtml (some b)).data := hcon.subset (by decide)
    rw [hesc] at hlt
    exact no_lt_in_escaped b.data hlt
  have hblock : bioBlock p = "<p class=\"bio\">\"" ++ escapeHtml (some b) ++ "\"</p>" := by
    simp [bioBlock, hb, truthyS_some hbne]
  refine ⟨hb ▸ hpos, hb ▸ hneg, ?_⟩
  rw [hblock]
  refine hpos.trans ⟨"<p class=\"bio\">\"".data, "\"</p>".data, ?_⟩
  simp [String.data_append]

theorem claim7_bio_script_witness :
    ("&lt;script&gt;".data <:+: (escapeHtml scriptBioProfile.bio).data) ∧
    ¬ ("<script>".data <:+: (escapeHtml scriptBioProfile.bio).data) ∧
    ("&lt;script&gt;".data <:+: (bioBlock scriptBioProfile).data) :=
  claim7_bio_script scriptBioProfile "hey <script>alert(1)</script>" rfl (by decide)

/-! ## Claim C5 -/

theorem originSplitUnique (s h : List Char)
    (heq : s ++ ("://".data ++ h) = "https://bizbuz.planetnine.app".data) :
    s = "https".data ∧ h = "bizbuz.planetnine.app".data := by
  have hlen : s.length + (3 + h.length) = 29 := by
    have h2 := congrArg List.length heq
    simp only [List.length_append] at h2
    rw [show ("://".data.length = 3) from rfl,
      show ("https://bizbuz.planetnine.app".data.length = 29) from rfl] at h2
    exact h2
  have hk : s.length < 30 := by omega
  have hpre : "://".data <+: List.drop s.length ("https://bizbuz.planetnine.app".data) := by
    rw [← heq, List.drop_left]
    exact List.prefix_append _ _
  have hfive : s.length = 5 := by
    have hdec : ∀ k < 30,
        ("://".data <+: List.drop k ("https://bizbuz.planetnine.app".data)) → k = 5 := by
      decide
    exact hdec s.length hk hpre
  constructor
  · have htake := List.take_left s ("://".data ++ h)
    rw [heq, hfive] at htake
    rw [← htake]
    decide
  · have hdrop := List.drop_left s ("://".data ++ h)
    rw [heq, hfive] at hdrop
    have h9 : List.drop 3 ("://".data ++ h) = h := List.drop_left "://".data h
    have h8 := congrArg (List.drop 3) hdrop
    rw [h9] at h8
    rw [← h8]
    decide

/-- Claim C5: the QR code embedded in the card page encodes the fixed
constant URL `https://bizbuz.planetnine.app/card/<identifier>` (a function
of the identifier alone), while the `/qr/:identifier` endpoint encodes
`<scheme>://<host>/card/<identifier>` from the incoming request; the two
URLs differ whenever the request's scheme or host is not the fixed
constant's. -/
theorem claim5_qr_urls :
    (∀ id, embeddedCardUrl id = "https://bizbuz.planetnine.app/card/" ++ id) ∧
    (∀ proto host id, qrEndpointCardUrl proto host id
      = proto ++ "://" ++ host ++ "/card/" ++ id) ∧
    (∀ proto host id, proto ≠ "https" ∨ host ≠ "bizbuz.planetnine.app" →
      qrEndpointCardUrl proto host id ≠ embeddedCardUrl id) := by
  refine ⟨fun id => rfl, fun proto host id => rfl, ?_⟩
  intro proto host id hne heq
  have hsplit : ("https://bizbuz.planetnine.app/card/" : String).data
      = "https://bizbuz.planetnine.app".data ++ "/card/".data := rfl
  have hdata : proto.data ++ ("://".data ++ (host.data ++ ("/card/".data ++ id.data)))
      = "https://bizbuz.planetnine.app".data ++ ("/card/".data ++ id.data) := by
    have h0 := congrArg String.data heq
    simp only [qrEndpointCardUrl, embeddedCardUrl, String.data_append, hsplit,
      List.append_assoc] at h0
    exact h0
  have hcat : (proto.data ++ ("://".data ++ host.data)) ++ ("/card/".data ++ id.data)
      = "https://bizbuz.planetnine.app".data ++ ("/card/".data ++ id.data) := by
    simpa [List.append_assoc] using hdata
  have hor : proto.data ++ ("://".data ++ host.data)
      = "https://bizbuz.planetnine.app".data := List.append_cancel_right hcat
  obtain ⟨hp, hh⟩ := originSplitUnique proto.data host.data hor
  rcases hne with h | h
  · exact h (String.ext hp)
  · exact h (String.ext hh)

theorem claim5_qr_urls_witness :
    qrEndpointCardUrl "http" "localhost:3013" "demo" ≠ embeddedCardUrl "demo" :=
  claim5_qr_urls.2.2 "http" "localhost:3013" "demo" (Or.inl (by decide))

/-! ## Claim C3 -/

set_option maxRecDepth 4000 in
/-- Claim C3 counterexample: for a profile whose name is `"<b>"` and title
`"<i>"`, the rendered page interpolates the raw name into the document
`<title>` (and the raw initials `"<"` into the avatar), so the page is not
the everywhere-escaped page the claim describes. -/
theorem claim3_counterexample :
    generateBusinessCardPage angleProfile "QR" "x"
      ≠ escapedCardPage angleProfile "QR" "x" ∧
    (∃ a b : String, generateBusinessCardPage angleProfile "QR" "x"
      = a ++ ("<title>" ++ "<b>" ++ " - Digital Business Card</title>") ++ b) ∧
    (∃ a b : String, escapedCardPage angleProfile "QR" "x"
      = a ++ ("<title>" ++ "&lt;b&gt;" ++ " - Digital Business Card</title>") ++ b) ∧
    getInitials angleProfile.name = "<" := by
  refine ⟨by decide, ?_, ?_, by decide⟩
  · refine ⟨cardSeg0a,
      cardSeg1b ++ cardSeg1c ++ jsOr angleProfile.title "" ++ cardSeg2
        ++ jsOr angleProfile.company "Planet Nine" ++ cardSeg3
        ++ getInitials angleProfile.name ++ cardSeg4
        ++ escapeHtml (some (jsOr angleProfile.name "Anonymous"))
        ++ cardSeg5 ++ titleBlock angleProfile ++ cardSeg6 ++ companyBlock angleProfile
        ++ cardSeg7 ++ bioBlock angleProfile ++ cardSeg8 ++ emailBlock angleProfile
        ++ cardSeg9 ++ phoneBlock angleProfile ++ cardSeg10 ++ websiteBlock angleProfile
        ++ cardSeg11 ++ locationBlock angleProfile ++ cardSeg12 ++ "QR" ++ cardSeg13
        ++ "x" ++ cardSeg14 ++ escapeHtml (some (jsOr angleProfile.name "Contact"))
        ++ cardSeg15, ?_⟩
    simp only [generateBusinessCardPage, cardSeg0, cardSeg1, cardSeg1a,
      show jsOr angleProfile.name "BizBuz" = "<b>" from rfl, String.append_assoc]
  · refine ⟨cardSeg0a,
      cardSeg1b ++ cardSeg1c ++ escapeHtml (some (jsOr angleProfile.title "")) ++ cardSeg2
        ++ escapeHtml (some (jsOr angleProfile.company "Planet Nine")) ++ cardSeg3
        ++ escapeHtml (some (getInitials angleProfile.name)) ++ cardSeg4
        ++ escapeHtml (some (jsOr angleProfile.name "Anonymous"))
        ++ cardSeg5 ++ titleBlock angleProfile ++ cardSeg6 ++ companyBlock angleProfile
        ++ cardSeg7 ++ bioBlock angleProfile ++ cardSeg8 ++ emailBlock angleProfile
        ++ cardSeg9 ++ phoneBlock angleProfile ++ cardSeg10 ++ websiteBlock angleProfile
        ++ cardSeg11 ++ locationBlock angleProfile ++ cardSeg12 ++ "QR" ++ cardSeg13
        ++ "x" ++ cardSeg14 ++ escapeHtml (some (jsOr angleProfile.name "Contact"))
        ++ cardSeg15, ?_⟩
    simp only [escapedCardPage, cardSeg0, cardSeg1, cardSeg1a,
      show escapeHtml (some (jsOr angleProfile.name "BizBuz")) = "&lt;b&gt;" from by decide,
      String.append_assoc]

/-- Claim C3 (amended): the profile text fields are HTML-escaped at their
body insertion points — the name heading and the title, company, bio,
email, phone, website and location blocks all receive the character-wise
escaping of `&`, `<`, `>`, `"`, `'` — but the document `<title>`, the
meta description and the avatar initials interpolate the raw, unescaped
values. -/
theorem claim3_escaping (p : Profile) (qr id : String) :
    (∀ s, escapeHtml (some s) = String.mk (s.data.flatMap escChar)) ∧
    (∃ a b : String, generateBusinessCardPage p qr id
      = a ++ ("<title>" ++ jsOr p.name "BizBuz" ++ " - Digital Business Card</title>") ++ b) ∧
    (∃ a b : String, generateBusinessCardPage p qr id
      = a ++ ("<meta name=\"description\" content=\"" ++ jsOr p.title "" ++ " at "
          ++ jsOr p.company "Planet Nine") ++ b) ∧
    (∃ a b : String, generateBusinessCardPage p qr id
      = a ++ ("<div class=\"avatar\">" ++ getInitials p.name ++ "</div>") ++ b) ∧
    (∃ a b : String, generateBusinessCardPage p qr id
      = a ++ ("<h1 class=\"name\">"
          ++ String.mk ((jsOr p.name "Anonymous").data.flatMap escChar) ++ "</h1>") ++ b) ∧
    (∀ v, p.title = some v → v ≠ "" →
      ∃ a b : String, generateBusinessCardPage p qr id
        = a ++ ("<p class=\"title\">" ++ String.mk (v.data.flatMap escChar) ++ "</p>") ++ b) ∧
    (∀ v, p.company = some v → v ≠ "" →
      ∃ a b : String, generateBusinessCardPage p qr id
        = a ++ ("<p class=\"company\">" ++ String.mk (v.data.flatMap escChar) ++ "</p>") ++ b) ∧
    (∀ v, p.bio = some v → v ≠ "" →
      ∃ a b : String, generateBusinessCardPage p qr id
        = a ++ ("<p class=\"bio\">\"" ++ String.mk (v.data.flatMap escChar) ++ "\"</p>") ++ b) ∧
    (∀ v, p.email = some v → v ≠ "" →
      ∃ a b : String, generateBusinessCardPage p qr id
        = a ++ ("\n                <a href=\"mailto:" ++ String.mk (v.data.flatMap escChar)
            ++ "\" class=\"contact-item\">\n                    <span class=\"contact-icon\">@</span>\n                    <span>"
            ++ String.mk (v.data.flatMap escChar) ++ "</span>\n                </a>\n                ") ++ b) ∧
    (∀ v, p.phone = some v → v ≠ "" →
      ∃ a b : String, generateBusinessCardPage p qr id
        = a ++ ("\n                <a href=\"tel:" ++ String.mk (v.data.flatMap escChar)
            ++ "\" class=\"contact-item\">\n                    <span class=\"contact-icon\">#</span>\n                    <span>"
            ++ String.mk (v.data.flatMap escChar) ++ "</span>\n                </a>\n                ") ++ b) ∧
    (∀ v, p.website = some v → v ≠ "" →
      ∃ a b : String, generateBusinessCardPage p qr id
        = a ++ ("\n                <a href=\"" ++ String.mk (v.data.flatMap escChar)
            ++ "\" target=\"_blank\" class=\"contact-item\">\n                    <span class=\"contact-icon\">~</span>\n                    <span>"
            ++ String.mk ((stripScheme v).data.flatMap escChar)
            ++ "</span>\n                </a>\n                ") ++ b) ∧
    (∀ v, p.location = some v → v ≠ "" →
      ∃ a b : String, generateBusinessCardPage p qr id
        = a ++ ("\n                <div class=\"contact-item\">\n                    <span class=\"contact-icon\">*</span>\n                    <span>"
            ++ String.mk (v.data.flatMap escChar)
            ++ "</span>\n                </div>\n                ") ++ b) := by
  refine ⟨escapeHtml_eq_flatMap, ?_, ?_, ?_, ?_, ?_, ?_, ?_, ?_, ?_, ?_, ?_⟩
  · refine ⟨cardSeg0a,
      cardSeg1b ++ cardSeg1c ++ jsOr p.title "" ++ cardSeg2 ++ jsOr p.company "Planet Nine"
        ++ cardSeg3 ++ getInitials p.name ++ cardSeg4
        ++ escapeHtml (some (jsOr p.name "Anonymous")) ++ cardSeg5 ++ titleBlock p
        ++ cardSeg6 ++ companyBlock p ++ cardSeg7 ++ bioBlock p ++ cardSeg8 ++ emailBlock p
        ++ cardSeg9 ++ phoneBlock p ++ cardSeg10 ++ websiteBlock p ++ cardSeg11
        ++ locationBlock p ++ cardSeg12 ++ qr ++ cardSeg13 ++ id ++ cardSeg14
        ++ escapeHtml (some (jsOr p.name "Contact")) ++ cardSeg15, ?_⟩
    simp only [generateBusinessCardPage, cardSeg0, cardSeg1, cardSeg1a, String.append_assoc]
  · refine ⟨cardSeg0 ++ jsOr p.name "BizBuz" ++ cardSeg1a ++ cardSeg1b,
      cardSeg3 ++ getInitials p.name ++ cardSeg4
        ++ escapeHtml (some (jsOr p.name "Anonymous")) ++ cardSeg5 ++ titleBlock p
        ++ cardSeg6 ++ companyBlock p ++ cardSeg7 ++ bioBlock p ++ cardSeg8 ++ emailBlock p
        ++ cardSeg9 ++ phoneBlock p ++ cardSeg10 ++ websiteBlock p ++ cardSeg11
        ++ locationBlock p ++ cardSeg12 ++ qr ++ cardSeg13 ++ id ++ cardSeg14
        ++ escapeHtml (some (jsOr p.name "Contact")) ++ cardSeg15, ?_⟩
    simp only [generateBusinessCardPage, cardSeg1, cardSeg1c, cardSeg2, String.append_assoc]
  · refine ⟨cardSeg0 ++ jsOr p.name "BizBuz" ++ cardSeg1 ++ jsOr p.title "" ++ cardSeg2
        ++ jsOr p.company "Planet Nine" ++ cardSeg3a,
      cardSeg4b ++ "<h1 class=\"name\">" ++ escapeHtml (some (jsOr p.name "Anonymous"))
        ++ cardSeg5 ++ titleBlock p ++ cardSeg6 ++ companyBlock p ++ cardSeg7 ++ bioBlock p
        ++ cardSeg8 ++ emailBlock p ++ cardSeg9 ++ phoneBlock p ++ cardSeg10 ++ websiteBlock p
        ++ cardSeg11 ++ locationBlock p ++ cardSeg12 ++ qr ++ cardSeg13 ++ id ++ cardSeg14
        ++ escapeHtml (some (jsOr p.name "Contact")) ++ cardSeg15, ?_⟩
    simp only [generateBusinessCardPage, cardSeg3, cardSeg4, String.append_assoc]
  · refine ⟨cardSeg0 ++ jsOr p.name "BizBuz" ++ cardSeg1 ++ jsOr p.title "" ++ cardSeg2
        ++ jsOr p.company "Planet Nine" ++ cardSeg3 ++ getInitials p.name ++ "</div>"
        ++ cardSeg4b,
      cardSeg5b ++ titleBlock p ++ cardSeg6 ++ companyBlock p ++ cardSeg7 ++ bioBlock p
        ++ cardSeg8 ++ emailBlock p ++ cardSeg9 ++ phoneBlock p ++ cardSeg10 ++ websiteBlock p
        ++ cardSeg11 ++ locationBlock p ++ cardSeg12 ++ qr ++ cardSeg13 ++ id ++ cardSeg14
        ++ escapeHtml (some (jsOr p.name "Contact")) ++ cardSeg15, ?_⟩
    simp only [generateBusinessCardPage, cardSeg4, cardSeg5, escapeHtml_eq_flatMap,
      String.append_assoc]
  · intro v hv hvne
    have hblk : titleBlock p
        = "<p class=\"title\">" ++ String.mk (v.data.flatMap escChar) ++ "</p>" := by
      rw [titleBlock, hv, truthyS_some hvne, if_pos rfl, escapeHtml_eq_flatMap]
    refine ⟨cardSeg0 ++ jsOr p.name "BizBuz" ++ cardSeg1 ++ jsOr p.title "" ++ cardSeg2
        ++ jsOr p.company "Planet Nine" ++ cardSeg3 ++ getInitials p.name ++ cardSeg4
        ++ escapeHtml (some (jsOr p.name "Anonymous")) ++ cardSeg5,
      cardSeg6 ++ companyBlock p ++ cardSeg7 ++ bioBlock p
        ++ cardSeg8 ++ emailBlock p ++ cardSeg9 ++ phoneBlock p ++ cardSeg10 ++ websiteBlock p
        ++ cardSeg11 ++ locationBlock p ++ cardSeg12 ++ qr ++ cardSeg13 ++ id ++ cardSeg14
        ++ escapeHtml (some (jsOr p.name "Contact")) ++ cardSeg15, ?_⟩
    simp only [generateBusinessCardPage, hblk, String.append_assoc]
  · intro v hv hvne
    have hblk : companyBlock p
        = "<p class=\"company\">" ++ String.mk (v.data.flatMap escChar) ++ "</p>" := by
      rw [companyBlock, hv, truthyS_some hvne, if_pos rfl, escapeHtml_eq_flatMap]
    refine ⟨cardSeg0 ++ jsOr p.name "BizBuz" ++ cardSeg1 ++ jsOr p.title "" ++ cardSeg2
        ++ jsOr p.company "Planet Nine" ++ cardSeg3 ++ getInitials p.name ++ cardSeg4
        ++ escapeHtml (some (jsOr p.name "Anonymous")) ++ cardSeg5 ++ titleBlock p
        ++ cardSeg6,
      cardSeg7 ++ bioBlock p ++ cardSeg8 ++ emailBlock p ++ cardSeg9 ++ phoneBlock p
        ++ cardSeg10 ++ websiteBlock p ++ cardSeg11 ++ locationBlock p ++ cardSeg12 ++ qr
        ++ cardSeg13 ++ id ++ cardSeg14 ++ escapeHtml (some (jsOr p.name "Contact"))
        ++ cardSeg15, ?_⟩
    simp only [generateBusinessCardPage, hblk, String.append_assoc]
  · intro v hv hvne
    have hblk : bioBlock p
        = "<p class=\"bio\">\"" ++ String.mk (v.data.flatMap escChar) ++ "\"</p>" := by
      rw [bioBlock, hv, truthyS_some hvne, if_pos rfl, escapeHtml_eq_flatMap]
    refine ⟨cardSeg0 ++ jsOr p.name "BizBuz" ++ cardSeg1 ++ jsOr p.title "" ++ cardSeg2
        ++ jsOr p.company "Planet Nine" ++ cardSeg3 ++ getInitials p.name ++ cardSeg4
        ++ escapeHtml (some (jsOr p.name "Anonymous")) ++ cardSeg5 ++ titleBlock p
        ++ cardSeg6 ++ companyBlock p ++ cardSeg7,
      cardSeg8 ++ emailBlock p ++ cardSeg9 ++ phoneBlock p
        ++ cardSeg10 ++ websiteBlock p ++ cardSeg11 ++ locationBlock p ++ cardSeg12 ++ qr
        ++ cardSeg13 ++ id ++ cardSeg14 ++ escapeHtml (some (jsOr p.name "Contact"))
        ++ cardSeg15, ?_⟩
    simp only [generateBusinessCardPage, hblk, String.append_assoc]
  · intro v hv hvne
    have hblk : emailBlock p
        = "\n                <a href=\"mailto:" ++ String.mk (v.data.flatMap escChar)
            ++ "\" class=\"contact-item\">\n                    <span class=\"contact-icon\">@</span>\n                    <span>"
            ++ String.mk (v.data.flatMap escChar) ++ "</span>\n                </a>\n                " := by
      rw [emailBlock, hv, truthyS_some hvne, if_pos rfl, escapeHtml_eq_flatMap]
    refine ⟨cardSeg0 ++ jsOr p.name "BizBuz" ++ cardSeg1 ++ jsOr p.title "" ++ cardSeg2
        ++ jsOr p.company "Planet Nine" ++ cardSeg3 ++ getInitials p.name ++ cardSeg4
        ++ escapeHtml (some (jsOr p.name "Anonymous")) ++ cardSeg5 ++ titleBlock p
        ++ cardSeg6 ++ companyBlock p ++ cardSeg7 ++ bioBlock p ++ cardSeg8,
      cardSeg9 ++ phoneBlock p
        ++ cardSeg10 ++ websiteBlock p ++ cardSeg11 ++ locationBlock p ++ cardSeg12 ++ qr
        ++ cardSeg13 ++ id ++ cardSeg14 ++ escapeHtml (some (jsOr p.name "Contact"))
        ++ cardSeg15, ?_⟩
    simp only [generateBusinessCardPage, hblk, String.append_assoc]
  · intro v hv hvne
    have hblk : phoneBlock p
        = "\n                <a href=\"tel:" ++ String.mk (v.data.flatMap escChar)
            ++ "\" class=\"contact-item\">\n                    <span class=\"contact-icon\">#</span>\n                    <span>"
            ++ String.mk (v.data.flatMap escChar) ++ "</span>\n                </a>\n                " := by
      rw [phoneBlock, hv, truthyS_some hvne, if_pos rfl, escapeHtml_eq_flatMap]
    refine ⟨cardSeg0 ++ jsOr p.name "BizBuz" ++ cardSeg1 ++ jsOr p.title "" ++ cardSeg2
        ++ jsOr p.company "Planet Nine" ++ cardSeg3 ++ getInitials p.name ++ cardSeg4
        ++ escapeHtml (some (jsOr p.name "Anonymous")) ++ cardSeg5 ++ titleBlock p
        ++ cardSeg6 ++ companyBlock p ++ cardSeg7 ++ bioBlock p ++ cardSeg8 ++ emailBlock p
        ++ cardSeg9,
      cardSeg10 ++ websiteBlock p ++ cardSeg11 ++ locationBlock p ++ cardSeg12 ++ qr
        ++ cardSeg13 ++ id ++ cardSeg14 ++ escapeHtml (some (jsOr p.name "Contact"))
        ++ cardSeg15, ?_⟩
    simp only [generateBusinessCardPage, hblk, String.append_assoc]
  · intro v hv hvne
    have hblk : websiteBlock p
        = "\n                <a href=\"" ++ String.mk (v.data.flatMap escChar)
            ++ "\" target=\"_blank\" class=\"contact-item\">\n                    <span class=\"contact-icon\">~</span>\n                    <span>"
            ++ String.mk ((stripScheme v).data.flatMap escChar)
            ++ "</span>\n                </a>\n                " := by
      rw [websiteBlock, hv, truthyS_some hvne, if_pos rfl]
      rw [show jsStr (some v) = v from rfl]
      rw [escapeHtml_eq_flatMap, escapeHtml_eq_flatMap]
    refine ⟨cardSeg0 ++ jsOr p.name "BizBuz" ++ cardSeg1 ++ jsOr p.title "" ++ cardSeg2
        ++ jsOr p.company "Planet Nine" ++ cardSeg3 ++ getInitials p.name ++ cardSeg4
        ++ escapeHtml (some (jsOr p.name "Anonymous")) ++ cardSeg5 ++ titleBlock p
        ++ cardSeg6 ++ companyBlock p ++ cardSeg7 ++ bioBlock p ++ cardSeg8 ++ emailBlock p
        ++ cardSeg9 ++ phoneBlock p ++ cardSeg10,
      cardSeg11 ++ locationBlock p ++ cardSeg12 ++ qr
        ++ cardSeg13 ++ id ++ cardSeg14 ++ escapeHtml (some (jsOr p.name "Contact"))
        ++ cardSeg15, ?_⟩
    simp only [generateBusinessCardPage, hblk, String.append_assoc]
  · intro v hv hvne
    have hblk : locationBlock p
        = "\n                <div class=\"contact-item\">\n                    <span class=\"contact-icon\">*</span>\n                    <span>"
            ++ String.mk (v.data.flatMap escChar)
            ++ "</span>\n                </div>\n                " := by
      rw [locationBlock, hv, truthyS_some hvne, if_pos rfl, escapeHtml_eq_flatMap]
    refine ⟨cardSeg0 ++ jsOr p.name "BizBuz" ++ cardSeg1 ++ jsOr p.title "" ++ cardSeg2
        ++ jsOr p.company "Planet Nine" ++ cardSeg3 ++ getInitials p.name ++ cardSeg4
        ++ escapeHtml (some (jsOr p.name "Anonymous")) ++ cardSeg5 ++ titleBlock p
        ++ cardSeg6 ++ companyBlock p ++ cardSeg7 ++ bioBlock p ++ cardSeg8 ++ emailBlock p
        ++ cardSeg9 ++ phoneBlock p ++ cardSeg10 ++ websiteBlock p ++ cardSeg11,
      cardSeg12 ++ qr
        ++ cardSeg13 ++ id ++ cardSeg14 ++ escapeHtml (some (jsOr p.name "Contact"))
        ++ cardSeg15, ?_⟩
    simp only [generateBusinessCardPage, hblk, String.append_assoc]

theorem claim3_escaping_witness :
    (∃ a b : String, generateBusinessCardPage richProfile "QR" "x"
      = a ++ ("<p class=\"title\">" ++ String.mk ("T<t".data.flatMap escChar) ++ "</p>") ++ b) ∧
    (∃ a b : String, generateBusinessCardPage richProfile "QR" "x"
      = a ++ ("<p class=\"company\">" ++ String.mk ("C>o".data.flatMap escChar) ++ "</p>") ++ b) ∧
    (∃ a b : String, generateBusinessCardPage richProfile "QR" "x"
      = a ++ ("<p class=\"bio\">\"" ++ String.mk ("B<io".data.flatMap escChar) ++ "\"</p>") ++ b) ∧
    (∃ a b : String, generateBusinessCardPage richProfile "QR" "x"
      = a ++ ("\n                <a href=\"mailto:" ++ String.mk ("e@x<".data.flatMap escChar)
          ++ "\" class=\"contact-item\">\n                    <span class=\"contact-icon\">@</span>\n                    <span>"
          ++ String.mk ("e@x<".data.flatMap escChar) ++ "</span>\n                </a>\n                ") ++ b) ∧
    (∃ a b : String, generateBusinessCardPage richProfile "QR" "x"
      = a ++ ("\n                <a href=\"tel:" ++ String.mk ("+1<2".data.flatMap escChar)
          ++ "\" class=\"contact-item\">\n                    <span class=\"contact-icon\">#</span>\n                    <span>"
          ++ String.mk ("+1<2".data.flatMap escChar) ++ "</span>\n                </a>\n                ") ++ b) ∧
    (∃ a b : String, generateBusinessCardPage richProfile "QR" "x"
      = a ++ ("\n                <a href=\"" ++ String.mk ("https://w<.io".data.flatMap escChar)
          ++ "\" target=\"_blank\" class=\"contact-item\">\n                    <span class=\"contact-icon\">~</span>\n                    <span>"
          ++ String.mk ((stripScheme "https://w<.io").data.flatMap escChar)
          ++ "</span>\n                </a>\n                ") ++ b) ∧
    (∃ a b : String, generateBusinessCardPage richProfile "QR" "x"
      = a ++ ("\n                <div class=\"contact-item\">\n                    <span class=\"contact-icon\">*</span>\n                    <span>"
          ++ String.mk ("L<oc".data.flatMap escChar)
          ++ "</span>\n                </div>\n                ") ++ b) :=
  ⟨(claim3_escaping richProfile "QR" "x").2.2.2.2.2.1 "T<t" rfl (by decide),
   (claim3_escaping richProfile "QR" "x").2.2.2.2.2.2.1 "C>o" rfl (by decide),
   (claim3_escaping richProfile "QR" "x").2.2.2.2.2.2.2.1 "B<io" rfl (by decide),
   (claim3_escaping richProfile "QR" "x").2.2.2.2.2.2.2.2.1 "e@x<" rfl (by decide),
   (claim3_escaping richProfile "QR" "x").2.2.2.2.2.2.2.2.2.1 "+1<2" rfl (by decide),
   (claim3_escaping richProfile "QR" "x").2.2.2.2.2.2.2.2.2.2.1 "https://w<.io" rfl (by decide),
   (claim3_escaping richProfile "QR" "x").2.2.2.2.2.2.2.2.2.2.2 "L<oc" rfl (by decide)⟩
